import Mathlib

/-!
# Marketing dashboard front-end: session store and dashboard formatting

A shallow embedding of the pure parts of `Dashboard.jsx` and `AuthContext.jsx`.

JavaScript numbers are IEEE-754 binary64 values.  The metrics that go through
`formatNumber` are counts, so its Number argument is carried as the integer it
denotes; there the one place where a non-integer Number appears is the quotient
`num / 1000` (or `num / 1000000`) that is handed straight to `toFixed(1)`.  That
quotient is modelled exactly: it is the binary64 value nearest to the real
quotient (ties to even), kept as a fraction whose denominator is a power of two.
The rates and percentages, which need not be integers, are carried as the JSON
number that denotes them.
-/

namespace MarketingBot

/-! ## Number primitives (ECMAScript `Number`) -/

/-- Nearest integer to the fraction `a / b` (for `0 < b`), a tie going to the even
neighbour: the rounding mode of every binary64 operation. -/
def roundHalfEven (a b : Nat) : Nat :=
  if b < 2 * (a % b) ∨ (2 * (a % b) = b ∧ (a / b) % 2 = 1) then a / b + 1 else a / b

/-- Upward search for the binary exponent of `p / q`, starting from `e`. -/
def binadeAux (p q : Nat) : Nat → Nat → Nat
  | 0, e => e
  | fuel + 1, e => if p < q * 2 ^ (e + 1) then e else binadeAux p q fuel (e + 1)

/-- The binary exponent of `p / q` for `0 < q ≤ p`: the `e` with
`2 ^ e ≤ p / q < 2 ^ (e + 1)`. -/
def binade (p q : Nat) : Nat := binadeAux p q p 0

/-- The binary64 quotient `p / q` of two Numbers with `0 < q ≤ p`, as the fraction
`(numerator, denominator)`: the real quotient rounded to 53 significant bits.
With `q = 1` it is the binary64 value nearest to the integer `p`. -/
def f64Div (p q : Nat) : Nat × Nat :=
  let e := binade p q
  if e ≤ 52 then (roundHalfEven (p * 2 ^ (52 - e)) q, 2 ^ (52 - e))
  else (roundHalfEven p (q * 2 ^ (e - 52)) * 2 ^ (e - 52), 1)

/-- The binary64 value nearest to the natural number `v`. -/
def f64Round (v : Nat) : Nat := (f64Div v 1).1 / (f64Div v 1).2

/-- The natural number `v` is a finite binary64 value: it has at most 53
significant bits and lies below `2 ^ 1024`. -/
def isF64 (v : Nat) : Bool := f64Round v == v && decide (binade v 1 < 1024)

/-- Number of decimal digits of `v`. -/
def decDigits (v : Nat) : Nat := (Nat.toDigits 10 v).length

/-- Search of `Number::toString` for the shortest decimal that reads back as the
binary64 value `x` (an integer with `D` digits): at `k` significant digits the two
candidates are the multiples of `10 ^ (D - k)` on either side of `x`; of two
candidates that both read back as `x` the closer one is taken, the even one on a
tie. -/
def shortestAux (x D : Nat) : Nat → Nat → Nat
  | 0, _ => x
  | fuel + 1, k =>
    let u := 10 ^ (D - k)
    let lo := x / u * u
    let hi := lo + u
    if f64Round lo = x then
      if f64Round hi = x then
        if x - lo < hi - x then lo
        else if hi - x < x - lo then hi
        else if (x / u) % 2 = 0 then lo else hi
      else lo
    else if f64Round hi = x then hi
    else shortestAux x D fuel (k + 1)

/-- The decimal value `s × 10 ^ (n - k)` that `Number::toString` prints for the
integer-valued binary64 value `x`: the one with the fewest significant digits
`k` among those whose nearest binary64 value is `x`. -/
def shortest (x : Nat) : Nat := shortestAux x (decDigits x) (decDigits x) 1

/-- Removes the trailing decimal zeros of `v`. -/
def stripZeros : Nat → Nat → Nat
  | 0, v => v
  | fuel + 1, v => if v % 10 = 0 ∧ v ≠ 0 then stripZeros fuel (v / 10) else v

/-- The `Number::toString` text of a non-negative integer-valued binary64 value:
the digits of the shortest decimal, written out in full up to 21 digits and
in exponent form (`d.ddde+NN`) beyond. -/
def numberToString (x : Nat) : String :=
  let v := shortest x
  let n := decDigits v
  if n ≤ 21 then Nat.repr v
  else
    match Nat.toDigits 10 (stripZeros v v) with
    | [] => ""
    | [d] => String.mk [d] ++ "e+" ++ Nat.repr (n - 1)
    | d :: ds => String.mk (d :: '.' :: ds) ++ "e+" ++ Nat.repr (n - 1)

/-- A count of tenths written with one decimal place, as in `12.3`. -/
def tenths (k : Nat) : String := Nat.repr (k / 10) ++ "." ++ Nat.repr (k % 10)

/-- The integer `n` for which `n / 10 - x` is closest to zero, the larger `n` on a
tie: the floor of `10 x + 1 / 2`, for the fraction `x`. -/
def tenthsOf (x : Nat × Nat) : Nat := (20 * x.1 + x.2) / (2 * x.2)

/-- The text of `x.toFixed(1)` for a non-negative binary64 value `x` given as a
fraction: at `10 ^ 21` and above it is the `Number::toString` text of `x`; below,
the integer `n` for which `n / 10 - x` is closest to zero (the larger `n` on a
tie) written with one decimal place. -/
def toFixed1 (x : Nat × Nat) : String :=
  if 10 ^ 21 * x.2 ≤ x.1 then numberToString (x.1 / x.2)
  else tenths (tenthsOf x)

/-! ## Values handed to `formatNumber` -/

/-- The JavaScript values a metric field of an analytics payload is modelled to
hold: a missing field reads as `undefined`; `num n` is the Number with the
integer value `n`. -/
inductive JSValue where
  | undefined
  | null
  | bool (b : Bool)
  | nan
  | num (n : Int)
  deriving DecidableEq, Repr

namespace JSValue

/-- ECMAScript `ToBoolean`. -/
def truthy : JSValue → Bool
  | undefined => false
  | null => false
  | bool b => b
  | nan => false
  | num n => n != 0

/-- The test `v !== 0`. -/
def strictNeZero : JSValue → Bool
  | num n => n != 0
  | _ => true

/-- ECMAScript `ToNumber` on the modelled values; `none` is `NaN`. -/
def toNumber : JSValue → Option Int
  | undefined => none
  | null => some 0
  | bool b => some (if b then 1 else 0)
  | nan => none
  | num n => some n

/-- The text of `v.toString()`. `undefined` and `null` have no such method;
`formatNumber` returns before reaching them, and they are given the text of
`String(v)`. -/
def toStr : JSValue → String
  | undefined => "undefined"
  | null => "null"
  | bool b => if b then "true" else "false"
  | nan => "NaN"
  | num n => if n < 0 then "-" ++ numberToString n.natAbs else numberToString n.natAbs

end JSValue

/-! ## `Dashboard.jsx`: number formatting -/

/-- `formatNumber` of `Dashboard.jsx`. -/
def formatNumber (num : JSValue) : String :=
  if !num.truthy && num.strictNeZero then "--"
  else
    match num.toNumber with
    | some n =>
      if 1000000 ≤ n then toFixed1 (f64Div n.toNat 1000000) ++ "M"
      else if 1000 ≤ n then toFixed1 (f64Div n.toNat 1000) ++ "K"
      else num.toStr
    | none => num.toStr

/-! ## Reading a displayed text back as a number -/

/-- The number written by a run of decimal digits. -/
def digitsValue (cs : List Char) : Nat :=
  cs.foldl (fun acc c => 10 * acc + (c.toNat - 48)) 0

/-- Splits a text into its leading run of decimal digits and the rest. -/
def spanDigits (cs : List Char) : List Char × List Char :=
  (cs.takeWhile Char.isDigit, cs.dropWhile Char.isDigit)

/-- Reads an optional fraction: after a point, the run of digits that follows. -/
def readFraction : List Char → List Char × List Char
  | [] => ([], [])
  | c :: r => if c = '.' then spanDigits r else ([], c :: r)

/-- Reads an optional exponent `e+NN`; without one the exponent is 0. -/
def readExponent : List Char → Nat × List Char
  | c1 :: c2 :: r =>
    if c1 = 'e' ∧ c2 = '+' then (digitsValue (spanDigits r).1, (spanDigits r).2)
    else (0, c1 :: c2 :: r)
  | r => (0, r)

/-- The multiplier a suffix stands for: none is 1, `K` is 1000, `M` is 1000000. -/
def suffixScale : List Char → Option Nat
  | [] => some 1
  | [c] => if c = 'K' then some 1000 else if c = 'M' then some 1000000 else none
  | _ => none

/-- Reads a text shown by `formatNumber` back as the quantity it displays: the
decimal (integer digits, an optional fraction after a point, an optional
exponent `e+NN`), times 1000 for a `K` suffix and times 1000000 for an `M`
suffix. A text that is not of this shape reads as nothing. -/
def readBack (s : String) : Option ℚ :=
  let ip := spanDigits s.data
  let fp := readFraction ip.2
  let ex := readExponent fp.2
  if ip.1 = [] then none
  else (suffixScale ex.2).map fun m =>
    (digitsValue (ip.1 ++ fp.1) : ℚ) * 10 ^ ex.1 * m / 10 ^ fp.1.length

/-! ## `AuthContext.jsx` -/

/-- The user profile handed to `login` and kept in the session; the one field the
views read is `full_name` (`none`: the field is absent). -/
structure UserProfile where
  full_name : Option String
  deriving DecidableEq, Repr

/-- The text kept under the `user` key of `localStorage`, described by what
`JSON.parse` makes of it: `json u` is the text `JSON.stringify(u)`, which parses
back to `u`; `raw s` is a text `s` that is not JSON, on which `JSON.parse`
throws. -/
inductive StoredText where
  | json (u : UserProfile)
  | raw (s : String)
  deriving DecidableEq, Repr

/-- `JSON.stringify` of a profile. -/
def jsonStringify (u : UserProfile) : StoredText := .json u

/-- The state of `AuthProvider` together with the two `localStorage` entries it
owns and a count of the requests sent so far. -/
structure Session where
  user : Option UserProfile
  token : Option String
  loading : Bool
  storedToken : Option String
  storedUser : Option StoredText
  requests : Nat
  deriving DecidableEq, Repr

/-- What a `fetch` call comes to: the promise rejects (network failure), or it
resolves to a response with a status that is a success (`ok`) or not, and a body
that is JSON or not. -/
inductive FetchOutcome where
  | rejected
  | response (ok : Bool) (jsonBody : Bool)
  deriving DecidableEq, Repr

/-- Code of `AuthProvider`: it can throw, and it updates the session; what was
written before a throw stays written. -/
abbrev Auth := ExceptT String (StateM Session)

/-- ECMAScript `ToBoolean` of a string or `null`. -/
def truthyString : Option String → Bool
  | some s => s != ""
  | none => false

/-- ECMAScript `ToBoolean` of the text read from the `user` entry. -/
def truthyText : Option StoredText → Bool
  | some (.json _) => true
  | some (.raw s) => s != ""
  | none => false

/-- `await fetch(...)`: one request, which throws when the promise rejects. -/
def fetch (r : FetchOutcome) : Auth (Bool × Bool) := do
  modify fun s => { s with requests := s.requests + 1 }
  match r with
  | .rejected => throw "TypeError: Failed to fetch"
  | .response ok body => pure (ok, body)

/-- `await response.json()`: throws when the body is not JSON. -/
def responseJson (jsonBody : Bool) : Auth Unit :=
  if jsonBody then pure () else throw "SyntaxError: Unexpected token"

/-- `JSON.parse` of a stored text. -/
def jsonParse : Option StoredText → Auth (Option UserProfile)
  | some (.json u) => pure (some u)
  | some (.raw _) => throw "SyntaxError: Unexpected token"
  | none => pure none

/-- `verifyStoredToken` of `AuthContext.jsx`; `r` is what the request to
`/api/verify` comes to. -/
def verifyStoredToken (r : FetchOutcome) : Auth Unit := do
  let storedToken := (← get).storedToken
  let storedUser := (← get).storedUser
  if truthyString storedToken && truthyText storedUser then
    try
      let response ← fetch r
      if response.1 then
        responseJson response.2
        modify fun s => { s with token := storedToken }
        let parsed ← jsonParse storedUser
        modify fun s => { s with user := parsed }
      else
        modify fun s => { s with storedToken := none }
        modify fun s => { s with storedUser := none }
    catch _ =>
      modify fun s => { s with storedToken := none }
      modify fun s => { s with storedUser := none }
  modify fun s => { s with loading := false }

/-- `login` of `AuthContext.jsx`. -/
def login (newToken : String) (userData : UserProfile) : Auth Unit := do
  modify fun s => { s with token := some newToken }
  modify fun s => { s with user := some userData }
  modify fun s => { s with storedToken := some newToken }
  modify fun s => { s with storedUser := some (jsonStringify userData) }

/-- `logout` of `AuthContext.jsx`; `r` is what the request to `/api/logout`
comes to. -/
def logout (r : FetchOutcome) : Auth Unit := do
  try
    let _ ← fetch r
  catch _ =>
    pure ()
  finally
    modify fun s => { s with token := none }
    modify fun s => { s with user := none }
    modify fun s => { s with storedToken := none }
    modify fun s => { s with storedUser := none }

/-- The `isAuthenticated` member of the context value: `!!token`. -/
def isAuthenticated (s : Session) : Bool := truthyString s.token

/-! ## `Dashboard.jsx`: the greeting -/

/-- The text a template literal substitutes for a string-valued expression that
may be `undefined`. -/
def templateText : Option String → String
  | some s => s
  | none => "undefined"

/-- `getTimeGreeting` of `Dashboard.jsx`, for the local hour `hour` read from the
clock and the `user` of the context. -/
def getTimeGreeting (hour : Nat) (user : Option UserProfile) : String :=
  let greeting :=
    if hour < 12 then "Good morning"
    else if hour < 18 then "Good afternoon"
    else "Good evening"
  greeting ++ ", " ++ templateText (user.bind fun u => u.full_name)

/-- The session at application start: nothing in memory, `loading` set, and
whatever an earlier visit left in `localStorage`. -/
def initialSession (storedToken : Option String) (storedUser : Option StoredText) : Session :=
  { user := none, token := none, loading := true, storedToken := storedToken,
    storedUser := storedUser, requests := 0 }

/-! ## Numbers that need not be integers: the rate and percentage metrics -/

/-- The binary64 value nearest to the fraction `p / q` (for `0 < q`), as a
fraction: `f64Div` extended to quotients below 1, where the significand is
scaled up instead of down, subnormal values being multiples of `2 ^ (-1074)`. -/
def f64OfRat (p q : Nat) : Nat × Nat :=
  if p = 0 then (0, 1)
  else if q ≤ p then f64Div p q
  else
    let e := binade q p
    let t := if p * 2 ^ e = q then e else e + 1
    (roundHalfEven (p * 2 ^ (52 + min t 1022)) q, 2 ^ (52 + min t 1022))

/-- A Number as a JSON text writes it: a sign, decimal digits and a power of
ten. It denotes the binary64 value nearest to `digits × 10 ^ exp10`. -/
structure JsonNumber where
  negative : Bool := false
  digits : Nat
  exp10 : Int := 0
  deriving DecidableEq, Repr

/-- The fraction `s × 10 ^ e`. -/
def decimalValue (s : Nat) (e : Int) : Nat × Nat :=
  if 0 ≤ e then (s * 10 ^ e.toNat, 1) else (s, 10 ^ (-e).toNat)

/-- The magnitude of the Number a JSON number denotes, as a fraction. -/
def JsonNumber.magnitude (x : JsonNumber) : Nat × Nat :=
  f64OfRat (decimalValue x.digits x.exp10).1 (decimalValue x.digits x.exp10).2

/-- The Number is `+0` or `-0`: the case in which it is falsy. -/
def JsonNumber.isZero (x : JsonNumber) : Bool := x.magnitude.1 == 0

/-- The Number is `Infinity` or `-Infinity`: the magnitude is beyond the largest
binary64 value. -/
def JsonNumber.isInfinite (x : JsonNumber) : Bool :=
  decide ((2 ^ 128) ^ 8 * x.magnitude.2 ≤ x.magnitude.1)

/-- The number of zeros after the decimal point of the fraction `a / b` below 1,
searched upward from `j`. -/
def leadingZeros (a b : Nat) : Nat → Nat → Nat
  | 0, j => j
  | fuel + 1, j => if b ≤ a * 10 ^ (j + 1) then j else leadingZeros a b fuel (j + 1)

/-- The position `n` of the decimal point of the positive fraction `a / b`:
`10 ^ (n - 1) ≤ a / b < 10 ^ n`. -/
def pointPosition (a b : Nat) : Int :=
  if b ≤ a then (decDigits (a / b) : Int) else -(leadingZeros a b 400 0 : Int)

/-- The integer part of `(a / b) / 10 ^ e`. -/
def scaledFloor (a b : Nat) (e : Int) : Nat :=
  if 0 ≤ e then a / (b * 10 ^ e.toNat) else a * 10 ^ (-e).toNat / b

/-- The decimal `s × 10 ^ e` reads back as the binary64 value `a / b`. -/
def readsBackAs (s : Nat) (e : Int) (a b : Nat) : Bool :=
  (f64OfRat (decimalValue s e).1 (decimalValue s e).2).1 * b ==
    a * (f64OfRat (decimalValue s e).1 (decimalValue s e).2).2

/-- Of the two decimals `s × 10 ^ e` and `(s + 1) × 10 ^ e` around `a / b`, the
closer one, the even one on a tie. -/
def closerOf (s : Nat) (e : Int) (a b : Nat) : Nat :=
  let d := (decimalValue 1 e).2
  let unit := (decimalValue 1 e).1 * b
  let x := a * d
  let lo := s * unit
  let hi := (s + 1) * unit
  if x - lo < hi - x then s
  else if hi - x < x - lo then s + 1
  else if s % 2 = 0 then s else s + 1

/-- Search of `Number::toString` for the shortest decimal `s × 10 ^ (n - k)` that
reads back as the binary64 value `a / b`, from `k` significant digits on; 17
digits always suffice. -/
def shortestDecimal (a b : Nat) (n : Int) : Nat → Nat → Nat × Int
  | 0, k => (closerOf (scaledFloor a b (n - k)) (n - k) a b, n - k)
  | fuel + 1, k =>
    let e := n - k
    let s := scaledFloor a b e
    if readsBackAs s e a b then
      if readsBackAs (s + 1) e a b then (closerOf s e a b, e) else (s, e)
    else if readsBackAs (s + 1) e a b then (s + 1, e)
    else shortestDecimal a b n fuel (k + 1)

/-- The `Number::toString` text of the positive finite binary64 value `a / b`. -/
def positiveNumberText (a b : Nat) : String :=
  let found := shortestDecimal a b (pointPosition a b) 16 1
  let s := stripZeros found.1 found.1
  let ds := Nat.toDigits 10 s
  let k := ds.length
  let n : Int := (decDigits found.1 : Int) + found.2
  if (k : Int) ≤ n ∧ n ≤ 21 then String.mk (ds ++ List.replicate (n.toNat - k) '0')
  else if 0 < n ∧ n ≤ 21 then String.mk (ds.take n.toNat ++ '.' :: ds.drop n.toNat)
  else if -6 < n ∧ n ≤ 0 then String.mk ('0' :: '.' :: List.replicate (-n).toNat '0' ++ ds)
  else
    let exponent := (if 0 ≤ n - 1 then "e+" else "e-") ++ Nat.repr (n - 1).natAbs
    match ds with
    | [] => ""
    | [d] => String.mk [d] ++ exponent
    | d :: rest => String.mk (d :: '.' :: rest) ++ exponent

/-- The text of a Number, `Number::toString`: what React writes for a number
among the children of an element. -/
def JsonNumber.text (x : JsonNumber) : String :=
  if x.isZero then "0"
  else
    (if x.negative then "-" else "") ++
      (if x.isInfinite then "Infinity" else positiveNumberText x.magnitude.1 x.magnitude.2)

/-- The text of `{field || '--'}%` in the JSX, for a rate or percentage `field`
that is a Number or is absent. -/
def rateText (field : Option JsonNumber) : String :=
  (match field with
    | some r => if !r.isZero then r.text else "--"
    | none => "--") ++ "%"

/-! ## `Dashboard.jsx`: data -/

/-- A named time series of an analytics payload: `labels` and `values`, either
of which may be absent. -/
structure Series where
  labels : Option (List String) := none
  values : Option (List Int) := none
  deriving DecidableEq, Repr

/-- The `content_breakdown` object of the Instagram payload. -/
structure ContentBreakdown where
  stories_percentage : Option JsonNumber := none
  posts_percentage : Option JsonNumber := none
  deriving DecidableEq, Repr

/-- The `industry_data` object of the LinkedIn payload. -/
structure IndustryData where
  tech : Option JsonNumber := none
  finance : Option JsonNumber := none
  deriving DecidableEq, Repr

/-- The analytics payload of a platform, a JSON object: the time series the chart
constructors read and the rates and percentages the view shows, each of which
may be absent. -/
structure Payload where
  fans_data : Option Series := none
  impressions_data : Option Series := none
  engagement_data : Option Series := none
  reach_data : Option Series := none
  views_data : Option Series := none
  followers_data : Option Series := none
  profile_activity_data : Option Series := none
  connections_data : Option Series := none
  growth_rate : Option JsonNumber := none
  engagement_rate : Option JsonNumber := none
  content_breakdown : Option ContentBreakdown := none
  industry_data : Option IndustryData := none
  deriving DecidableEq, Repr

/-- The names every object inherits from `Object.prototype` in a browser: a
property lookup with one of these names on an object literal finds the inherited
member when the object has no property of its own with that name. -/
def objectPrototypeNames : List String :=
  ["constructor", "hasOwnProperty", "isPrototypeOf", "propertyIsEnumerable",
   "toLocaleString", "toString", "valueOf", "__proto__", "__defineGetter__",
   "__defineSetter__", "__lookupGetter__", "__lookupSetter__"]

/-- What `obj[key]` evaluates to on an object literal whose own properties hold
values of type `α`: the own property, else an inherited member of
`Object.prototype`, else `undefined`. -/
inductive Lookup (α : Type) where
  | own (v : α)
  | inherited (name : String)
  | undefined
  deriving DecidableEq, Repr

/-- The lookup `obj[key]`, for the own properties `obj`. -/
def lookup {α : Type} (obj : String → Option α) (key : String) : Lookup α :=
  match obj key with
  | some v => .own v
  | none => if key ∈ objectPrototypeNames then .inherited key else .undefined

/-- ECMAScript `ToBoolean` of a looked-up payload or list: objects, arrays and
functions are truthy, `undefined` is not. -/
def Lookup.truthy {α : Type} : Lookup α → Bool
  | .own _ => true
  | .inherited _ => true
  | .undefined => false

/-- A company of the home summary. -/
structure Company where
  id : Nat
  name : String
  created_at : String
  deriving DecidableEq, Repr

/-- The `homeData` state. -/
structure HomeData where
  companies : List Company
  total_budget : Int
  total_approved : Int
  total_archived : Int
  total_strategies : Int
  deriving DecidableEq, Repr

/-- The JSON body of `GET /api/home`; a field may be absent. -/
structure HomeBody where
  success : Bool := false
  companies : Option (List Company) := none
  total_budget : Option Int := none
  total_approved : Option Int := none
  total_archived : Option Int := none
  total_strategies : Option Int := none
  deriving DecidableEq, Repr

/-- What a `fetch` call of the dashboard comes to: the promise rejects, or it
resolves to a response with a success status or not and a body that parses as
JSON to `body` (`none`: the body is not JSON). -/
inductive Reply (α : Type) where
  | rejected
  | response (ok : Bool) (body : Option α)
  deriving DecidableEq, Repr

/-- A request sent by the dashboard. -/
inductive Request where
  | home
  | analytics (platform : String) (days : Nat)
  deriving DecidableEq, Repr

/-- A call of `renderChartsForPlatform(platform, data)` put on a timer. -/
structure RenderJob where
  platform : String
  data : Lookup Payload
  deriving DecidableEq, Repr

/-- The state of the `Dashboard` component, with a log of the requests it has
sent and of the chart renders it has put on a timer. -/
structure Dashboard where
  homeData : HomeData
  activePlatform : String
  analyticsData : String → Option Payload
  loading : Bool
  analyticsLoading : Bool
  requests : List Request
  timers : List RenderJob

/-- The state `Dashboard` starts in. -/
def initialDashboard : Dashboard :=
  { homeData := { companies := [], total_budget := 0, total_approved := 0,
                  total_archived := 0, total_strategies := 0 },
    activePlatform := "facebook",
    analyticsData := fun _ => none,
    loading := true,
    analyticsLoading := false,
    requests := [],
    timers := [] }

/-- Code of `Dashboard`: it can throw, and it updates the component state. -/
abbrev Dash := ExceptT String (StateM Dashboard)

/-- The call `fetch(url)`: the request goes out. -/
def sendRequest (q : Request) : Dash Unit :=
  modify fun s => { s with requests := s.requests ++ [q] }

/-- The end of `await fetch(url)`: throws when the promise rejected. -/
def awaitReply {α : Type} : Reply α → Dash (Bool × Option α)
  | .rejected => throw "TypeError: Failed to fetch"
  | .response ok body => pure (ok, body)

/-- The call `await response.json()`: throws when the body is not JSON. -/
def bodyJson {α : Type} : Option α → Dash α
  | some b => pure b
  | none => throw "SyntaxError: Unexpected token"

/-- The object `{...prev, [platform]: data}`. -/
def setEntry (prev : String → Option Payload) (platform : String) (data : Payload) :
    String → Option Payload :=
  fun key => if key = platform then some data else prev key

/-- `fetchHomeData` of `Dashboard.jsx`; `r` is what the request to `/api/home`
comes to. -/
def fetchHomeData (r : Reply HomeBody) : Dash Unit := do
  try
    modify fun s => { s with loading := true }
    sendRequest .home
    let response ← awaitReply r
    if response.1 then
      let data ← bodyJson response.2
      if data.success then
        modify fun s => { s with homeData :=
          { companies := data.companies.getD [],
            total_budget := data.total_budget.getD 0,
            total_approved := data.total_approved.getD 0,
            total_archived := data.total_archived.getD 0,
            total_strategies := data.total_strategies.getD 0 } }
  catch _ =>
    pure ()
  finally
    modify fun s => { s with loading := false }

/-- The part of `fetchAnalyticsData(platform, days)` that runs when it is called,
up to the `await` of the response: `analyticsLoading` is set and the request
goes out. -/
def fetchAnalyticsIssue (platform : String) (days : Nat) : Dash Unit := do
  modify fun s => { s with analyticsLoading := true }
  sendRequest (.analytics platform days)

/-- The part of `fetchAnalyticsData(platform, days)` that runs when the response
has arrived; `r` is what the request came to. The update of `analyticsData` is
applied to the state of that moment. -/
def fetchAnalyticsSettle (platform : String) (r : Reply Payload) : Dash Unit := do
  try
    let response ← awaitReply r
    if response.1 then
      let data ← bodyJson response.2
      modify fun s => { s with analyticsData := setEntry s.analyticsData platform data }
      modify fun s => { s with timers := s.timers ++ [{ platform := platform, data := .own data }] }
  catch _ =>
    pure ()
  finally
    modify fun s => { s with analyticsLoading := false }

/-- `fetchAnalyticsData` of `Dashboard.jsx` run from the call to the end, with
nothing else happening while the request is in flight. -/
def fetchAnalyticsData (platform : String) (days : Nat) (r : Reply Payload) : Dash Unit := do
  fetchAnalyticsIssue platform days
  fetchAnalyticsSettle platform r

/-- `handlePlatformToggle` of `Dashboard.jsx`. The call of `fetchAnalyticsData`
is not awaited: the handler ends once the request is out. -/
def handlePlatformToggle (platform : String) : Dash Unit := do
  modify fun s => { s with activePlatform := platform }
  let cached := lookup (← get).analyticsData platform
  if !cached.truthy then
    let days := if platform = "instagram" then 14 else 30
    fetchAnalyticsIssue platform days
  else
    modify fun s => { s with timers := s.timers ++ [{ platform := platform, data := cached }] }

/-- `handlePeriodChange` of `Dashboard.jsx`; the call of `fetchAnalyticsData` is
not awaited. -/
def handlePeriodChange (platform : String) (days : Nat) : Dash Unit :=
  fetchAnalyticsIssue platform days

/-- The effect that starts the analytics on mount. -/
def mountAnalytics : Dash Unit :=
  fetchAnalyticsIssue "facebook" 30

/-- The handler run `n` times in a row. -/
def repeatToggle (platform : String) : Nat → Dash Unit
  | 0 => pure ()
  | n + 1 => do
    handlePlatformToggle platform
    repeatToggle platform n

/-! ## `Dashboard.jsx`: charts -/

/-- The value of `chartIds[platform] || []` in `getChartIdsForPlatform`. -/
def chartIdTable : String → Option (List String)
  | "facebook" => some ["fb-fans-chart", "fb-engagement-chart", "fb-reach-chart"]
  | "instagram" => some ["ig-followers-chart", "ig-views-reach-chart", "ig-profile-activity-chart"]
  | "linkedin" => some ["ln-connections-chart", "ln-views-impressions-chart"]
  | _ => none

/-- `getChartIdsForPlatform` of `Dashboard.jsx`: the looked-up entry when it is
truthy, else the empty list. -/
def getChartIdsForPlatform (platform : String) : Lookup (List String) :=
  let found := lookup chartIdTable platform
  if found.truthy then found else .own []

/-- One series of a line chart, with its preset style. -/
structure Dataset where
  label : String
  data : List Int
  borderColor : String
  backgroundColor : String
  fill : Bool := false
  tension : Option String := none
  borderWidth : Nat := 2
  deriving DecidableEq, Repr

/-- A call `createLineChart(Chart, elementId, title, { labels, datasets })`. -/
structure LineChart where
  elementId : String
  title : String
  labels : List String
  datasets : List Dataset
  deriving DecidableEq, Repr

/-- The value of `data.field?.labels || fallback`. -/
def labelsOr (field : Option Series) (fallback : List String) : List String :=
  match field.bind fun s => s.labels with
  | some l => l
  | none => fallback

/-- The value of `data.field?.values || fallback`. -/
def valuesOr (field : Option Series) (fallback : List Int) : List Int :=
  match field.bind fun s => s.values with
  | some v => v
  | none => fallback

/-- `createFacebookCharts` of `Dashboard.jsx`: its calls of `createLineChart`. -/
def createFacebookCharts (data : Payload) : List LineChart :=
  [ { elementId := "fb-fans-chart", title := "Page Fans Growth",
      labels := labelsOr data.fans_data ["Jan", "Feb", "Mar", "Apr", "May"],
      datasets := [
        { label := "Total Fans",
          data := valuesOr data.fans_data [1000, 1200, 1100, 1300, 1400],
          borderColor := "#4267B2", backgroundColor := "rgba(66, 103, 178, 0.1)",
          fill := true, tension := some "0.3" } ] },
    { elementId := "fb-engagement-chart", title := "Impressions vs Engagement",
      labels := labelsOr data.impressions_data ["Jan", "Feb", "Mar", "Apr", "May"],
      datasets := [
        { label := "Impressions",
          data := valuesOr data.impressions_data [5000, 6000, 5500, 7000, 7500],
          borderColor := "#8B9DC3", backgroundColor := "rgba(139, 157, 195, 0.1)" },
        { label := "Engagement",
          data := valuesOr data.engagement_data [500, 600, 550, 700, 750],
          borderColor := "#3B5998", backgroundColor := "rgba(59, 89, 152, 0.1)" } ] },
    { elementId := "fb-reach-chart", title := "Reach & Views",
      labels := labelsOr data.reach_data ["Jan", "Feb", "Mar", "Apr", "May"],
      datasets := [
        { label := "Reach",
          data := valuesOr data.reach_data [3000, 3500, 3200, 3800, 4000],
          borderColor := "#1877F2", backgroundColor := "rgba(24, 119, 242, 0.1)",
          fill := true },
        { label := "Views",
          data := valuesOr data.views_data [2000, 2200, 2100, 2400, 2500],
          borderColor := "#42B883", backgroundColor := "rgba(66, 184, 131, 0.1)",
          fill := true } ] } ]

/-- `createInstagramCharts` of `Dashboard.jsx`: its calls of `createLineChart`. -/
def createInstagramCharts (data : Payload) : List LineChart :=
  [ { elementId := "ig-followers-chart", title := "Followers Growth Trend",
      labels := labelsOr data.followers_data ["Week 1", "Week 2", "Week 3", "Week 4"],
      datasets := [
        { label := "Followers",
          data := valuesOr data.followers_data [1500, 1600, 1550, 1700],
          borderColor := "#E4405F", backgroundColor := "rgba(228, 64, 95, 0.1)",
          fill := true, tension := some "0.4" } ] },
    { elementId := "ig-views-reach-chart", title := "Views & Reach Analytics",
      labels := labelsOr data.views_data ["Week 1", "Week 2", "Week 3", "Week 4"],
      datasets := [
        { label := "Total Views",
          data := valuesOr data.views_data [8000, 8500, 8200, 9000],
          borderColor := "#F77737", backgroundColor := "rgba(247, 119, 55, 0.1)",
          fill := true, tension := some "0.3" },
        { label := "Accounts Reached",
          data := valuesOr data.reach_data [6000, 6500, 6200, 7000],
          borderColor := "#833AB4", backgroundColor := "rgba(131, 58, 180, 0.1)",
          fill := true, tension := some "0.3" } ] },
    { elementId := "ig-profile-activity-chart", title := "Profile Activity Overview",
      labels := labelsOr data.profile_activity_data ["Mon", "Tue", "Wed", "Thu", "Fri"],
      datasets := [
        { label := "Profile Views",
          data := valuesOr data.profile_activity_data [150, 200, 180, 220, 190],
          borderColor := "#FD1D1D", backgroundColor := "rgba(253, 29, 29, 0.2)",
          fill := true, tension := some "0.4" } ] } ]

/-- `createLinkedInCharts` of `Dashboard.jsx`: its calls of `createLineChart`. -/
def createLinkedInCharts (data : Payload) : List LineChart :=
  [ { elementId := "ln-connections-chart", title := "Connections Growth",
      labels := labelsOr data.connections_data ["Jan", "Feb", "Mar", "Apr", "May"],
      datasets := [
        { label := "Connections",
          data := valuesOr data.connections_data [500, 550, 525, 600, 625],
          borderColor := "#0077B5", backgroundColor := "rgba(0, 119, 181, 0.1)",
          fill := true, tension := some "0.3" } ] },
    { elementId := "ln-views-impressions-chart", title := "Profile Views & Post Impressions",
      labels := labelsOr data.views_data ["Jan", "Feb", "Mar", "Apr", "May"],
      datasets := [
        { label := "Profile Views",
          data := valuesOr data.views_data [300, 350, 325, 400, 425],
          borderColor := "#0077B5", backgroundColor := "rgba(0, 119, 181, 0.15)",
          fill := true, tension := some "0.3" },
        { label := "Post Impressions",
          data := valuesOr data.impressions_data [2000, 2200, 2100, 2400, 2500],
          borderColor := "#005885", backgroundColor := "rgba(0, 88, 133, 0.15)",
          fill := true, tension := some "0.3" } ] } ]

/-! ## `Dashboard.jsx`: the company cards -/

/-- A rendered statistics card: its title, main text and subtitle, and the route
it links to, if any. -/
structure StatCard where
  title : String
  main : String
  subtitle : String
  link : Option String
  deriving DecidableEq, Repr

/-- The company section rendered by `Dashboard`: one card per company, or the
placeholder card when `homeData.companies.length > 0` fails. -/
def companyCards (companies : List Company) : List StatCard :=
  if companies.length > 0 then
    companies.map fun company =>
      { title := "Company", main := company.name,
        subtitle := "Created on: " ++ company.created_at,
        link := some ("/company/" ++ numberToString company.id) }
  else
    [ { title := "Company", main := "No companies yet",
        subtitle := "Create your business profile", link := none } ]

/-! ## `Dashboard.jsx`: rendering the charts -/

/-- The chart containers of the document. For a chart identifier `id`: `none`
when no element `id-container` is in the document, `some none` when the
container holds a canvas `id` with no chart on it, and `some (some c)` when the
chart `c` has been constructed on that canvas. -/
abbrev Dom := String → Option (Option LineChart)

/-- The body of the `forEach` in `renderChartsForPlatform`: if the container is
in the document its content is replaced by a fresh canvas. -/
def resetContainer (dom : Dom) (chartId : String) : Dom :=
  match dom chartId with
  | some _ => fun id => if id = chartId then some none else dom id
  | none => dom

/-- `createLineChart` of `Dashboard.jsx`: nothing is drawn when the canvas is not
in the document; `new Chart` puts the chart on a canvas that has none, and
throws on a canvas that is in use, which is caught. -/
def createLineChart (dom : Dom) (chart : LineChart) : Dom :=
  match dom chart.elementId with
  | none => dom
  | some none => fun id => if id = chart.elementId then some (some chart) else dom id
  | some (some _) => dom

/-- The payload the chart constructors read from `data`: a member inherited
from `Object.prototype` has none of the fields. -/
def payloadOf : Lookup Payload → Payload
  | .own x => x
  | _ => {}

/-- The calls of `createLineChart` made by the timer callback of
`renderChartsForPlatform`. -/
def chartsFor (platform : String) (data : Payload) : List LineChart :=
  if platform = "facebook" then createFacebookCharts data
  else if platform = "instagram" then createInstagramCharts data
  else if platform = "linkedin" then createLinkedInCharts data
  else []

/-- `renderChartsForPlatform` of `Dashboard.jsx` run to the end of its timer
callback; `imported` tells whether the dynamic import of the chart library
resolves. A failed import, and `forEach` called on a value that is not a list,
throw and are caught. -/
def renderChartsForPlatform (platform : String) (data : Lookup Payload) (imported : Bool)
    (dom : Dom) : Dom :=
  if !data.truthy then dom
  else if !imported then dom
  else
    match getChartIdsForPlatform platform with
    | .own chartIds =>
      (chartsFor platform (payloadOf data)).foldl createLineChart
        (chartIds.foldl resetContainer dom)
    | _ => dom

/-! ## `Dashboard.jsx`: the rate and percentage cells -/

/-- The rate and percentage cells of the view, by element identifier, with the
text each shows for the cache `analyticsData`. -/
def rateCells (analyticsData : String → Option Payload) : List (String × String) :=
  [ ("fb-growth-rate", rateText ((analyticsData "facebook").bind (·.growth_rate))),
    ("ig-growth-rate", rateText ((analyticsData "instagram").bind (·.growth_rate))),
    ("ig-stories-percent",
      rateText (((analyticsData "instagram").bind (·.content_breakdown)).bind
        (·.stories_percentage))),
    ("ig-posts-percent",
      rateText (((analyticsData "instagram").bind (·.content_breakdown)).bind
        (·.posts_percentage))),
    ("ln-engagement-rate", rateText ((analyticsData "linkedin").bind (·.engagement_rate))),
    ("ln-growth-rate", rateText ((analyticsData "linkedin").bind (·.growth_rate))),
    ("ln-tech-percent",
      rateText (((analyticsData "linkedin").bind (·.industry_data)).bind (·.tech))),
    ("ln-finance-percent",
      rateText (((analyticsData "linkedin").bind (·.industry_data)).bind (·.finance))) ]

/-! ## Sequences of session operations -/

/-- An operation on the session store, with what its request comes to. -/
inductive AuthOp where
  | login (newToken : String) (userData : UserProfile)
  | logout (r : FetchOutcome)
  | verify (r : FetchOutcome)
  deriving DecidableEq, Repr

/-- The code an operation runs. -/
def AuthOp.code : AuthOp → Auth Unit
  | .login newToken userData => MarketingBot.login newToken userData
  | .logout r => MarketingBot.logout r
  | .verify r => verifyStoredToken r

/-- The session after a sequence of operations, each run to its end before the
next one starts. -/
def runOps : List AuthOp → Session → Session
  | [], s => s
  | op :: ops, s => runOps ops (op.code.run.run s).2

/-- The two stored entries are both present or both absent. -/
def storagePaired (s : Session) : Bool :=
  s.storedToken.isSome == s.storedUser.isSome

/-! ## Facts about the Number primitives -/

theorem binadeAux_spec (p q : Nat) : ∀ (fuel e : Nat), q * 2 ^ e ≤ p → p < q * 2 ^ (e + fuel + 1) →
    q * 2 ^ binadeAux p q fuel e ≤ p ∧ p < q * 2 ^ (binadeAux p q fuel e + 1)
  | 0, e, h1, h2 => by simpa [binadeAux] using ⟨h1, h2⟩
  | fuel + 1, e, h1, h2 => by
    unfold binadeAux
    split
    · exact ⟨h1, by assumption⟩
    · apply binadeAux_spec p q fuel (e + 1) (by omega)
      have : e + 1 + fuel + 1 = e + (fuel + 1) + 1 := by omega
      rw [this]; exact h2

theorem binade_spec (p q : Nat) (hq : 0 < q) (hpq : q ≤ p) :
    q * 2 ^ binade p q ≤ p ∧ p < q * 2 ^ (binade p q + 1) := by
  apply binadeAux_spec p q p 0 (by simpa using hpq)
  have h1 : p < 2 ^ p := Nat.lt_two_pow p
  have h2 : 2 ^ p ≤ 2 ^ (0 + p + 1) := Nat.pow_le_pow_right (by norm_num) (by omega)
  calc p < 2 ^ (0 + p + 1) := by omega
    _ = 1 * 2 ^ (0 + p + 1) := by ring
    _ ≤ q * 2 ^ (0 + p + 1) := Nat.mul_le_mul_right _ hq


theorem roundHalfEven_near (a q : Nat) (hq : 0 < q) :
    2 * (q * roundHalfEven a q) ≤ 2 * a + q ∧ 2 * a ≤ 2 * (q * roundHalfEven a q) + q := by
  have h1 : q * (a / q) + a % q = a := Nat.div_add_mod a q
  have h2 : a % q < q := Nat.mod_lt a hq
  unfold roundHalfEven
  split
  · rw [Nat.mul_add]; omega
  · omega

theorem tenths_near (d p b : Nat) (hd : 0 < d) (hb : 10 * d < b) :
    2 * d * ((20 * roundHalfEven (p * b) (20 * d) + b) / (2 * b)) ≤ p + d ∧
    p ≤ 2 * d * ((20 * roundHalfEven (p * b) (20 * d) + b) / (2 * b)) + d := by
  have hbpos : 0 < b := by omega
  obtain ⟨r1, r2⟩ := roundHalfEven_near (p * b) (20 * d) (by omega)
  generalize roundHalfEven (p * b) (20 * d) = M at r1 r2 ⊢
  have k1 : 2 * b * ((20 * M + b) / (2 * b)) ≤ 20 * M + b := Nat.mul_div_le _ _
  have k2 : 20 * M + b < 2 * b * ((20 * M + b) / (2 * b)) + 2 * b := by
    have := Nat.lt_div_mul_add (a := 20 * M + b) (b := 2 * b) (by omega)
    rw [Nat.mul_comm ((20 * M + b) / (2 * b))] at this; exact this
  generalize (20 * M + b) / (2 * b) = k at k1 k2 ⊢
  constructor
  · by_contra hc
    push_neg at hc
    nlinarith
  · by_contra hc
    push_neg at hc
    nlinarith

theorem toFixed1_f64Div_near (d m : Nat) (hd : 0 < d) (hm : m < 10 ^ 21)
    (he : binade m (20 * d) ≤ 52) (hb : 10 * d < 2 ^ (52 - binade m (20 * d))) :
    ∃ k : Nat, toFixed1 (f64Div m (20 * d)) = tenths k ∧ 2 * d * k ≤ m + d ∧ m ≤ 2 * d * k + d := by
  obtain ⟨t1, t2⟩ := tenths_near d m _ hd hb
  have hlt : ¬ 10 ^ 21 * 2 ^ (52 - binade m (20 * d)) ≤
      roundHalfEven (m * 2 ^ (52 - binade m (20 * d))) (20 * d) := by
    have := (roundHalfEven_near (m * 2 ^ (52 - binade m (20 * d))) (20 * d) (by omega)).1
    have hpos : 0 < 2 ^ (52 - binade m (20 * d)) := by positivity
    nlinarith
  refine ⟨(20 * roundHalfEven (m * 2 ^ (52 - binade m (20 * d))) (20 * d) +
    2 ^ (52 - binade m (20 * d))) / (2 * 2 ^ (52 - binade m (20 * d))), ?_, t1, t2⟩
  simp only [f64Div, he, if_true, toFixed1, tenthsOf, hlt, if_false]


theorem roundHalfEven_one (a : Nat) : roundHalfEven a 1 = a := by
  simp [roundHalfEven, Nat.mod_one]

theorem le_roundHalfEven (a b : Nat) : a / b ≤ roundHalfEven a b := by
  unfold roundHalfEven; split <;> omega

theorem binade_le_of_lt (v : Nat) (k : Nat) (h : v < 2 ^ (k + 1)) : binade v 1 ≤ k := by
  rcases Nat.eq_zero_or_pos v with rfl | hv
  · simp [binade, binadeAux]
  · obtain ⟨h1, _⟩ := binade_spec v 1 (by norm_num) hv
    by_contra hc
    have : 2 ^ (k + 1) ≤ 2 ^ binade v 1 := Nat.pow_le_pow_right (by norm_num) (by omega)
    omega

theorem f64Round_of_lt (v : Nat) (h : v < 2 ^ 53) : f64Round v = v := by
  have he : binade v 1 ≤ 52 := binade_le_of_lt v 52 h
  simp only [f64Round, f64Div, he, if_true, roundHalfEven_one]
  exact Nat.mul_div_cancel _ (by positivity)

theorem f64Round_ge (v : Nat) (h : 2 ^ 53 ≤ v) : 2 ^ 53 ≤ f64Round v := by
  obtain ⟨h1, h2⟩ := binade_spec v 1 (by norm_num) (by omega : 1 ≤ v)
  have he : 53 ≤ binade v 1 := by
    by_contra hc
    have : 2 ^ (binade v 1 + 1) ≤ 2 ^ 53 := Nat.pow_le_pow_right (by norm_num) (by omega)
    omega
  have hne : ¬ binade v 1 ≤ 52 := by omega
  simp only [f64Round, f64Div, hne, if_false, Nat.div_one, Nat.one_mul] at h1 ⊢
  have hsplit : 2 ^ binade v 1 = 2 ^ 52 * 2 ^ (binade v 1 - 52) := by
    rw [← Nat.pow_add]; congr 1; omega
  have hpos : 0 < 2 ^ (binade v 1 - 52) := by positivity
  have hq : 2 ^ 52 ≤ v / 2 ^ (binade v 1 - 52) := by
    rw [Nat.le_div_iff_mul_le hpos]; rw [← hsplit]; exact h1
  have hr := le_roundHalfEven v (2 ^ (binade v 1 - 52))
  calc 2 ^ 53 ≤ 2 ^ binade v 1 := Nat.pow_le_pow_right (by norm_num) he
    _ = 2 ^ 52 * 2 ^ (binade v 1 - 52) := hsplit
    _ ≤ roundHalfEven v (2 ^ (binade v 1 - 52)) * 2 ^ (binade v 1 - 52) :=
        Nat.mul_le_mul_right _ (le_trans hq hr)

theorem shortestAux_of_lt (x D : Nat) (h : x < 2 ^ 53) : ∀ fuel k, shortestAux x D fuel k = x
  | 0, _ => rfl
  | fuel + 1, k => by
    have hu : 0 < 10 ^ (D - k) := by positivity
    have hlo : x / 10 ^ (D - k) * 10 ^ (D - k) ≤ x := Nat.div_mul_le_self _ _
    have hhi : x < x / 10 ^ (D - k) * 10 ^ (D - k) + 10 ^ (D - k) := by
      have := Nat.lt_div_mul_add (a := x) hu
      omega
    have hlo2 : f64Round (x / 10 ^ (D - k) * 10 ^ (D - k)) = x / 10 ^ (D - k) * 10 ^ (D - k) :=
      f64Round_of_lt _ (by omega)
    have hhi2 : f64Round (x / 10 ^ (D - k) * 10 ^ (D - k) + 10 ^ (D - k)) ≠ x := by
      intro hc
      rcases Nat.lt_or_ge (x / 10 ^ (D - k) * 10 ^ (D - k) + 10 ^ (D - k)) (2 ^ 53) with hlt | hge
      · rw [f64Round_of_lt _ hlt] at hc; omega
      · have := f64Round_ge _ hge; omega
    simp only [shortestAux, hlo2, hhi2, if_false]
    split
    · assumption
    · exact shortestAux_of_lt x D h fuel (k + 1)

theorem shortest_of_lt (x : Nat) (h : x < 2 ^ 53) : shortest x = x :=
  shortestAux_of_lt x _ h _ _

theorem decDigits_le (x e : Nat) (h : x < 10 ^ e) (he : 0 < e) : decDigits x ≤ e :=
  Nat.toDigitsCore_length 10 (by decide) (x + 1) x e h he

theorem numberToString_of_lt (x : Nat) (h : x < 2 ^ 53) : numberToString x = Nat.repr x := by
  have hd : decDigits x ≤ 21 := decDigits_le x 21 (by omega) (by decide)
  simp [numberToString, shortest_of_lt x h, hd]


theorem digitChar_ne_minus : ∀ d : Nat, d < 10 → Nat.digitChar d ≠ '-' := by
  decide

theorem toDigitsCore_no_minus : ∀ (fuel n : Nat) (acc : List Char), (∀ c ∈ acc, c ≠ '-') →
    ∀ c ∈ Nat.toDigitsCore 10 fuel n acc, c ≠ '-'
  | 0, _, acc, h => by simpa [Nat.toDigitsCore] using h
  | fuel + 1, n, acc, h => by
    have hcons : ∀ c ∈ Nat.digitChar (n % 10) :: acc, c ≠ '-' := by
      intro c hc
      rcases List.mem_cons.mp hc with rfl | hc
      · exact digitChar_ne_minus _ (Nat.mod_lt _ (by decide))
      · exact h c hc
    unfold Nat.toDigitsCore
    simp only
    split
    · exact hcons
    · exact toDigitsCore_no_minus fuel (n / 10) _ hcons

theorem repr_no_minus (v : Nat) : '-' ∉ (Nat.repr v).data := by
  intro h
  exact toDigitsCore_no_minus (v + 1) v [] (by simp) '-' h rfl

theorem numberToString_no_minus (x : Nat) : '-' ∉ (numberToString x).data := by
  unfold numberToString
  simp only
  split
  · exact repr_no_minus _
  · have hd : ∀ c ∈ Nat.toDigits 10 (stripZeros (shortest x) (shortest x)), c ≠ '-' :=
      toDigitsCore_no_minus _ _ [] (by simp)
    split
    · simp
    · next d heq =>
      rw [heq] at hd
      simp only [String.data_append, List.mem_append, not_or]
      refine ⟨⟨?_, by decide⟩, repr_no_minus _⟩
      simpa using (hd d (by simp)).symm
    · next d ds _ heq =>
      rw [heq] at hd
      simp only [String.data_append, List.mem_append, not_or]
      refine ⟨⟨?_, by decide⟩, repr_no_minus _⟩
      intro hc
      rcases List.mem_cons.mp hc with h | h
      · exact hd d (by simp) h.symm
      · rcases List.mem_cons.mp h with h | h
        · exact absurd h (by decide)
        · exact hd '-' (by simp [h]) rfl

theorem append_suffix_ne_placeholder (s : String) (c : Char) (hc : c ≠ '-') :
    s ++ String.mk [c] ≠ "--" := by
  intro h
  have h2 := congrArg String.data h
  simp only [String.data_append] at h2
  have h3 : c ∈ ['-', '-'] := by
    have : c ∈ s.data ++ [c] := by simp
    rw [h2] at this; exact this
  simp at h3
  exact hc h3

/-! ## Reading a displayed text back -/

theorem digitChar_props : ∀ d : Nat, d < 10 →
    (Nat.digitChar d).isDigit = true ∧ (Nat.digitChar d).toNat - 48 = d := by
  decide

theorem digitsValue_append_singleton (l : List Char) (c : Char) :
    digitsValue (l ++ [c]) = 10 * digitsValue l + (c.toNat - 48) := by
  simp [digitsValue, List.foldl_append]

/-- The digits that `Nat.toDigitsCore` puts in front of its accumulator. -/
theorem toDigitsCore_spec : ∀ (fuel n : Nat) (ds : List Char), n < fuel →
    ∃ L : List Char, Nat.toDigitsCore 10 fuel n ds = L ++ ds ∧ digitsValue L = n ∧
      (∀ c ∈ L, c.isDigit = true) ∧ L ≠ [] ∧ (∀ ds2, Nat.toDigitsCore 10 fuel n ds2 = L ++ ds2)
  | 0, n, ds, h => by omega
  | fuel + 1, n, ds, h => by
    obtain ⟨hd1, hd2⟩ := digitChar_props (n % 10) (Nat.mod_lt _ (by decide))
    by_cases h0 : n / 10 = 0
    · refine ⟨[Nat.digitChar (n % 10)], ?_, ?_, ?_, by simp, ?_⟩
      · simp [Nat.toDigitsCore, h0]
      · have : n % 10 = n := by omega
        simp only [digitsValue, List.foldl]
        omega
      · simpa using hd1
      · intro ds2; simp [Nat.toDigitsCore, h0]
    · obtain ⟨L, _, hL2, hL3, _, hL5⟩ :=
        toDigitsCore_spec fuel (n / 10) (Nat.digitChar (n % 10) :: ds) (by omega)
      refine ⟨L ++ [Nat.digitChar (n % 10)], ?_, ?_, ?_, by simp, ?_⟩
      · simp [Nat.toDigitsCore, h0, hL5]
      · rw [digitsValue_append_singleton, hL2, hd2]; omega
      · intro c hc
        rcases List.mem_append.mp hc with h | h
        · exact hL3 c h
        · simp at h; rw [h]; exact hd1
      · intro ds2; simp [Nat.toDigitsCore, h0, hL5]

theorem toDigits_spec (n : Nat) :
    digitsValue (Nat.toDigits 10 n) = n ∧ (∀ c ∈ Nat.toDigits 10 n, c.isDigit = true) ∧
      Nat.toDigits 10 n ≠ [] := by
  obtain ⟨L, hL1, hL2, hL3, hL4, _⟩ := toDigitsCore_spec (n + 1) n [] (by omega)
  have : Nat.toDigits 10 n = L := by simpa [Nat.toDigits] using hL1
  rw [this]; exact ⟨hL2, hL3, hL4⟩

theorem spanDigits_append (A r : List Char) (c : Char) (hA : ∀ x ∈ A, x.isDigit = true)
    (hc : c.isDigit = false) : spanDigits (A ++ c :: r) = (A, c :: r) := by
  induction A with
  | nil => simp [spanDigits, List.takeWhile, List.dropWhile, hc]
  | cons a A ih =>
    have ha := hA a (by simp)
    have := ih (fun x hx => hA x (by simp [hx]))
    simp only [spanDigits, Prod.mk.injEq] at this ⊢
    simp [List.takeWhile, List.dropWhile, ha, this]

theorem spanDigits_all (A : List Char) (hA : ∀ x ∈ A, x.isDigit = true) :
    spanDigits A = (A, []) := by
  induction A with
  | nil => rfl
  | cons a A ih =>
    have ha := hA a (by simp)
    have := ih (fun x hx => hA x (by simp [hx]))
    simp only [spanDigits, Prod.mk.injEq] at this ⊢
    simp [List.takeWhile, List.dropWhile, ha, this]

theorem readBack_repr (n : Nat) : readBack (Nat.repr n) = some (n : ℚ) := by
  obtain ⟨h1, h2, h3⟩ := toDigits_spec n
  have hd : (Nat.repr n).data = Nat.toDigits 10 n := rfl
  simp [readBack, hd, spanDigits_all _ h2, readFraction, readExponent, h3, suffixScale, h1]

theorem toDigits_of_lt_ten (d : Nat) (h : d < 10) : Nat.toDigits 10 d = [Nat.digitChar d] := by
  have h0 : d / 10 = 0 := by omega
  have h1 : d % 10 = d := by omega
  simp [Nat.toDigits, Nat.toDigitsCore, h0, h1]

theorem readBack_tenths (k : Nat) (c : Char) (hc : c = 'K' ∨ c = 'M') :
    readBack (tenths k ++ String.mk [c]) =
      some ((k : ℚ) * (if c = 'K' then 1000 else 1000000) / 10) := by
  obtain ⟨a1, a2, a3⟩ := toDigits_spec (k / 10)
  have hlt : k % 10 < 10 := Nat.mod_lt _ (by decide)
  obtain ⟨d1, d2⟩ := digitChar_props (k % 10) hlt
  have b2 : ∀ x ∈ [Nat.digitChar (k % 10)], x.isDigit = true := by simpa using d1
  have hcd : c.isDigit = false := by rcases hc with rfl | rfl <;> decide
  have hd : (tenths k ++ String.mk [c]).data =
      Nat.toDigits 10 (k / 10) ++ '.' :: ([Nat.digitChar (k % 10)] ++ c :: []) := by
    rw [← toDigits_of_lt_ten _ hlt]
    simp [tenths, String.data_append]
    rfl
  have hv : digitsValue (Nat.toDigits 10 (k / 10) ++ [Nat.digitChar (k % 10)]) = k := by
    rw [digitsValue_append_singleton, a1, d2]; omega
  simp only [readBack, hd]
  rw [spanDigits_append _ _ _ a2 (by decide)]
  simp only [readFraction, if_true]
  rw [spanDigits_append _ _ _ b2 hcd, hv]
  rcases hc with rfl | rfl <;> simp [a3, suffixScale, readExponent]

theorem toDigitsCore_fuel : ∀ (f1 f2 n : Nat) (ds : List Char), n < f1 → n < f2 →
    Nat.toDigitsCore 10 f1 n ds = Nat.toDigitsCore 10 f2 n ds
  | 0, _, _, _, h, _ => by omega
  | _, 0, _, _, _, h => by omega
  | f1 + 1, f2 + 1, n, ds, h1, h2 => by
    by_cases h0 : n / 10 = 0
    · simp [Nat.toDigitsCore, h0]
    · simp only [Nat.toDigitsCore, h0, if_false]
      exact toDigitsCore_fuel f1 f2 (n / 10) _ (by omega) (by omega)

theorem toDigits_step (v : Nat) (h : 10 ≤ v) :
    Nat.toDigits 10 v = Nat.toDigits 10 (v / 10) ++ [Nat.digitChar (v % 10)] := by
  have h0 : v / 10 ≠ 0 := by omega
  obtain ⟨L, hL1, _, _, _, hL5⟩ := toDigitsCore_spec (v / 10 + 1) (v / 10) [] (by omega)
  have e1 : Nat.toDigits 10 (v / 10) = L := by simpa [Nat.toDigits] using hL1
  rw [e1]
  simp only [Nat.toDigits, Nat.toDigitsCore, h0, if_false]
  rw [toDigitsCore_fuel v (v / 10 + 1) (v / 10) _ (by omega) (by omega), hL5]

theorem decDigits_step (v : Nat) (h : 10 ≤ v) : decDigits v = decDigits (v / 10) + 1 := by
  simp [decDigits, toDigits_step v h]

theorem stripZeros_spec : ∀ (fuel v : Nat), ∃ j : Nat,
    v = stripZeros fuel v * 10 ^ j ∧ decDigits v = decDigits (stripZeros fuel v) + j
  | 0, v => ⟨0, by simp [stripZeros], by simp [stripZeros]⟩
  | fuel + 1, v => by
    by_cases hc : v % 10 = 0 ∧ v ≠ 0
    · obtain ⟨j, hj1, hj2⟩ := stripZeros_spec fuel (v / 10)
      refine ⟨j + 1, ?_, ?_⟩
      · simp only [stripZeros, hc, and_self, if_true, ne_eq, not_false_eq_true]
        have : v = v / 10 * 10 := by omega
        rw [pow_succ, ← Nat.mul_assoc, ← hj1]; exact this
      · simp only [stripZeros, hc, and_self, if_true, ne_eq, not_false_eq_true]
        rw [decDigits_step v (by omega), hj2]; omega
    · exact ⟨0, by simp [stripZeros, hc], by simp [stripZeros, hc]⟩

theorem readBack_repr_suffix (v : Nat) :
    readBack (Nat.repr v ++ "M") = some ((v : ℚ) * 1000000) := by
  obtain ⟨h1, h2, h3⟩ := toDigits_spec v
  have hd : (Nat.repr v ++ "M").data = Nat.toDigits 10 v ++ 'M' :: [] := by
    simp [String.data_append]; rfl
  simp only [readBack, hd]
  rw [spanDigits_append _ _ _ h2 (by decide)]
  simp [h3, suffixScale, readFraction, readExponent, h1]

theorem readBack_numberToString (x : Nat) :
    readBack (numberToString x ++ "M") = some ((shortest x : ℚ) * 1000000) := by
  unfold numberToString
  simp only
  split
  · exact readBack_repr_suffix _
  · obtain ⟨j, hj1, hj2⟩ := stripZeros_spec (shortest x) (shortest x)
    obtain ⟨s1, s2, s3⟩ := toDigits_spec (stripZeros (shortest x) (shortest x))
    obtain ⟨e1, e2, e3⟩ := toDigits_spec (decDigits (shortest x) - 1)
    have hlen : decDigits (stripZeros (shortest x) (shortest x)) =
        (Nat.toDigits 10 (stripZeros (shortest x) (shortest x))).length := rfl
    generalize stripZeros (shortest x) (shortest x) = s at *
    generalize decDigits (shortest x) = n at *
    generalize shortest x = v at *
    split
    · next heq => exact absurd heq s3
    · next d heq =>
      rw [heq] at s1 s2 hlen
      have hd : (String.mk [d] ++ "e+" ++ Nat.repr (n - 1) ++ "M").data =
          [d] ++ 'e' :: ('+' :: (Nat.toDigits 10 (n - 1) ++ 'M' :: [])) := by
        simp [String.data_append]; rfl
      simp only [readBack, hd]
      rw [spanDigits_append _ _ _ s2 (by decide)]
      simp only [readFraction, readExponent, Char.reduceEq, if_false, and_self, if_true]
      rw [spanDigits_append _ _ _ e2 (by decide), e1]
      have hn : n - 1 = j := by simp at hlen; omega
      simp [suffixScale, s1, hn, hj1]
    · next d ds hne heq =>
      rw [heq] at s1 s2 hlen
      have hd : (String.mk (d :: '.' :: ds) ++ "e+" ++ Nat.repr (n - 1) ++ "M").data =
          [d] ++ '.' :: (ds ++ 'e' :: ('+' :: (Nat.toDigits 10 (n - 1) ++ 'M' :: []))) := by
        simp [String.data_append]; rfl
      have sd : ∀ c ∈ [d], c.isDigit = true := fun c hc => s2 c (by simp at hc; simp [hc])
      have sds : ∀ c ∈ ds, c.isDigit = true := fun c hc => s2 c (by simp [hc])
      simp only [readBack, hd]
      rw [spanDigits_append _ _ _ sd (by decide)]
      simp only [readFraction, if_true]
      rw [spanDigits_append _ _ _ sds (by decide)]
      simp only [readExponent, and_self, if_true]
      rw [spanDigits_append _ _ _ e2 (by decide), e1]
      have hn : n - 1 = ds.length + j := by simp at hlen; omega
      have hv : digitsValue ([d] ++ ds) = s := s1
      rw [hv, hn, hj1]
      simp [suffixScale]
      field_simp
      ring

/-! ## Monotonicity of the binary64 operations -/

theorem roundHalfEven_mono (a b d : Nat) (h : a ≤ b) :
    roundHalfEven a d ≤ roundHalfEven b d := by
  have h1 : d * (a / d) + a % d = a := Nat.div_add_mod a d
  have h2 : d * (b / d) + b % d = b := Nat.div_add_mod b d
  have h3 : a / d ≤ b / d := Nat.div_le_div_right h
  rcases Nat.lt_or_ge (a / d) (b / d) with hlt | hge
  · calc roundHalfEven a d ≤ a / d + 1 := by unfold roundHalfEven; split <;> omega
      _ ≤ b / d := hlt
      _ ≤ roundHalfEven b d := le_roundHalfEven b d
  · have heq : a / d = b / d := by omega
    rw [heq] at h1
    unfold roundHalfEven
    rw [heq]
    split_ifs <;> omega

theorem roundHalfEven_ge (a d L : Nat) (hd : 0 < d) (h : L * d ≤ a) : L ≤ roundHalfEven a d :=
  le_trans ((Nat.le_div_iff_mul_le hd).mpr h) (le_roundHalfEven a d)

theorem roundHalfEven_le (a d U : Nat) (hd : 0 < d) (h : a < U * d) : roundHalfEven a d ≤ U := by
  have : a / d < U := (Nat.div_lt_iff_lt_mul hd).mpr h
  unfold roundHalfEven; split <;> omega

theorem roundHalfEven_exact (m d : Nat) (hd : 0 < d) : roundHalfEven (m * d) d = m := by
  have h1 : m * d % d = 0 := Nat.mul_mod_left m d
  have h2 : m * d / d = m := Nat.mul_div_cancel _ hd
  unfold roundHalfEven
  rw [h1, h2, if_neg (by omega)]

/-- The quotient lies in the binade of its exponent. -/
theorem f64Div_bounds (p q : Nat) (hq : 0 < q) (hpq : q ≤ p) :
    2 ^ binade p q * (f64Div p q).2 ≤ (f64Div p q).1 ∧
    (f64Div p q).1 ≤ 2 ^ (binade p q + 1) * (f64Div p q).2 ∧ 0 < (f64Div p q).2 := by
  obtain ⟨h1, h2⟩ := binade_spec p q hq hpq
  unfold f64Div
  simp only
  split
  · next he =>
    have hB : 0 < 2 ^ (52 - binade p q) := by positivity
    have e1 : 2 ^ binade p q * 2 ^ (52 - binade p q) = 2 ^ 52 := by
      rw [← Nat.pow_add]; congr 1; omega
    have e2 : 2 ^ (binade p q + 1) * 2 ^ (52 - binade p q) = 2 ^ 53 := by
      rw [← Nat.pow_add]; congr 1; omega
    refine ⟨?_, ?_, hB⟩
    · simp only [e1]
      apply roundHalfEven_ge _ _ _ hq
      calc 2 ^ 52 * q = q * 2 ^ binade p q * 2 ^ (52 - binade p q) := by rw [← e1]; ring
        _ ≤ p * 2 ^ (52 - binade p q) := Nat.mul_le_mul_right _ h1
    · simp only [e2]
      apply roundHalfEven_le _ _ _ hq
      calc p * 2 ^ (52 - binade p q) < q * 2 ^ (binade p q + 1) * 2 ^ (52 - binade p q) :=
            Nat.mul_lt_mul_of_pos_right h2 hB
        _ = 2 ^ 53 * q := by rw [← e2]; ring
  · next he =>
    have hC : 0 < 2 ^ (binade p q - 52) := by positivity
    have e1 : 2 ^ binade p q = 2 ^ 52 * 2 ^ (binade p q - 52) := by
      rw [← Nat.pow_add]; congr 1; omega
    have e2 : 2 ^ (binade p q + 1) = 2 ^ 53 * 2 ^ (binade p q - 52) := by
      rw [← Nat.pow_add]; congr 1; omega
    refine ⟨?_, ?_, by norm_num⟩
    · simp only [Nat.mul_one]
      rw [e1]
      apply Nat.mul_le_mul_right
      apply roundHalfEven_ge _ _ _ (by positivity)
      calc 2 ^ 52 * (q * 2 ^ (binade p q - 52)) = q * 2 ^ binade p q := by rw [e1]; ring
        _ ≤ p := h1
    · simp only [Nat.mul_one]
      rw [e2]
      apply Nat.mul_le_mul_right
      apply roundHalfEven_le _ _ _ (by positivity)
      calc p < q * 2 ^ (binade p q + 1) := h2
        _ = 2 ^ 53 * (q * 2 ^ (binade p q - 52)) := by rw [e2]; ring

theorem binade_mono (a b q : Nat) (hq : 0 < q) (ha : q ≤ a) (hab : a ≤ b) :
    binade a q ≤ binade b q := by
  obtain ⟨a1, _⟩ := binade_spec a q hq ha
  obtain ⟨_, b2⟩ := binade_spec b q hq (le_trans ha hab)
  by_contra hc
  have : 2 ^ (binade b q + 1) ≤ 2 ^ binade a q := Nat.pow_le_pow_right (by norm_num) (by omega)
  have : q * 2 ^ (binade b q + 1) ≤ q * 2 ^ binade a q := Nat.mul_le_mul_left _ this
  omega

/-- The binary64 quotient is monotone in the dividend. -/
theorem f64Div_mono (a b q : Nat) (hq : 0 < q) (ha : q ≤ a) (hab : a ≤ b) :
    (f64Div a q).1 * (f64Div b q).2 ≤ (f64Div b q).1 * (f64Div a q).2 := by
  have hle := binade_mono a b q hq ha hab
  rcases Nat.lt_or_ge (binade a q) (binade b q) with hlt | hge
  · obtain ⟨_, a2, a3⟩ := f64Div_bounds a q hq ha
    obtain ⟨b1, _, b3⟩ := f64Div_bounds b q hq (le_trans ha hab)
    have hp : 2 ^ (binade a q + 1) ≤ 2 ^ binade b q := Nat.pow_le_pow_right (by norm_num) hlt
    calc (f64Div a q).1 * (f64Div b q).2
        ≤ 2 ^ (binade a q + 1) * (f64Div a q).2 * (f64Div b q).2 := Nat.mul_le_mul_right _ a2
      _ ≤ 2 ^ binade b q * (f64Div a q).2 * (f64Div b q).2 :=
          Nat.mul_le_mul_right _ (Nat.mul_le_mul_right _ hp)
      _ = 2 ^ binade b q * (f64Div b q).2 * (f64Div a q).2 := by ring
      _ ≤ (f64Div b q).1 * (f64Div a q).2 := Nat.mul_le_mul_right _ b1
  · have heq : binade a q = binade b q := by omega
    unfold f64Div
    simp only [heq]
    split
    · exact Nat.mul_le_mul_right _ (roundHalfEven_mono _ _ _ (Nat.mul_le_mul_right _ hab))
    · simp only [Nat.mul_one]
      exact Nat.mul_le_mul_right _ (roundHalfEven_mono _ _ _ hab)

theorem div_le_div_of_cross (a b c d : Nat) (hb : 0 < b) (hd : 0 < d) (h : a * d ≤ c * b) :
    a / b ≤ c / d := by
  rw [Nat.le_div_iff_mul_le hd]
  have h1 : a / b * b ≤ a := Nat.div_mul_le_self a b
  have h2 : a / b * d * b ≤ c * b := by
    calc a / b * d * b = a / b * b * d := by ring
      _ ≤ a * d := Nat.mul_le_mul_right _ h1
      _ ≤ c * b := h
  exact Nat.le_of_mul_le_mul_right h2 hb

/-- The count of tenths printed by `toFixed(1)` is monotone in the value. -/
theorem tenthsOf_mono (x y : Nat × Nat) (hx : 0 < x.2) (hy : 0 < y.2)
    (h : x.1 * y.2 ≤ y.1 * x.2) : tenthsOf x ≤ tenthsOf y := by
  unfold tenthsOf
  apply div_le_div_of_cross _ _ _ _ (by omega) (by omega)
  nlinarith

theorem f64Round_zero : f64Round 0 = 0 := f64Round_of_lt 0 (by norm_num)

/-- Rounding to binary64 is monotone. -/
theorem f64Round_mono (a b : Nat) (h : a ≤ b) : f64Round a ≤ f64Round b := by
  rcases Nat.eq_zero_or_pos a with rfl | ha
  · rw [f64Round_zero]; exact Nat.zero_le _
  · obtain ⟨_, _, a3⟩ := f64Div_bounds a 1 (by norm_num) ha
    obtain ⟨_, _, b3⟩ := f64Div_bounds b 1 (by norm_num) (le_trans ha h)
    exact div_le_div_of_cross _ _ _ _ a3 b3 (f64Div_mono a b 1 (by norm_num) ha h)

/-- A 53-bit significand times a power of two is a binary64 value. -/
theorem f64Round_scaled (R s : Nat) (h1 : 2 ^ 52 ≤ R) (h2 : R ≤ 2 ^ 53) :
    f64Round (R * 2 ^ s) = R * 2 ^ s := by
  have hs : 0 < 2 ^ s := by positivity
  have hv : 1 ≤ R * 2 ^ s := by
    have : 1 ≤ R := by omega
    exact Nat.mul_pos this hs
  obtain ⟨b1, b2⟩ := binade_spec (R * 2 ^ s) 1 (by norm_num) hv
  simp only [Nat.one_mul] at b1 b2
  generalize hE : binade (R * 2 ^ s) 1 = e at b1 b2
  have lo : 52 + s ≤ e := by
    by_contra hc
    have h3 : 2 ^ (e + 1) ≤ 2 ^ (52 + s) := Nat.pow_le_pow_right (by norm_num) (by omega)
    have h4 : 2 ^ (52 + s) ≤ R * 2 ^ s := by
      rw [Nat.pow_add]; exact Nat.mul_le_mul_right _ h1
    omega
  have hi : e ≤ 53 + s := by
    by_contra hc
    have h3 : 2 ^ (54 + s) ≤ 2 ^ e := Nat.pow_le_pow_right (by norm_num) (by omega)
    have h4 : R * 2 ^ s ≤ 2 ^ 53 * 2 ^ s := Nat.mul_le_mul_right _ h2
    have h5 : 2 ^ (54 + s) = 2 * (2 ^ 53 * 2 ^ s) := by rw [Nat.pow_add]; ring
    omega
  unfold f64Round f64Div
  simp only [hE]
  split
  · next he =>
    simp only [roundHalfEven_one]
    exact Nat.mul_div_cancel _ (by positivity)
  · next he =>
    simp only [Nat.one_mul, Nat.div_one]
    rcases Nat.lt_or_ge e (53 + s) with hlt | hge
    · have : e - 52 = s := by omega
      rw [this, roundHalfEven_exact _ _ hs]
    · have he2 : e - 52 = s + 1 := by omega
      have h3 : 2 ^ (53 + s) ≤ R * 2 ^ s := by
        have : 2 ^ (53 + s) ≤ 2 ^ e := Nat.pow_le_pow_right (by norm_num) hge
        omega
      have h4 : 2 ^ 53 ≤ R := by
        rw [Nat.pow_add] at h3
        exact Nat.le_of_mul_le_mul_right h3 hs
      have hR : R = 2 ^ 53 := by omega
      have h5 : R * 2 ^ s = 2 ^ 52 * 2 ^ (s + 1) := by rw [hR]; ring
      rw [he2, h5, roundHalfEven_exact _ _ (by positivity)]

theorem shortestAux_roundtrip (x D : Nat) (hx : f64Round x = x) :
    ∀ fuel k, f64Round (shortestAux x D fuel k) = x
  | 0, _ => hx
  | fuel + 1, k => by
    unfold shortestAux
    simp only
    split_ifs <;> first | assumption | exact shortestAux_roundtrip x D hx fuel (k + 1)

/-- The decimal that `Number::toString` picks reads back as the same Number. -/
theorem shortest_roundtrip (x : Nat) (hx : f64Round x = x) : f64Round (shortest x) = x :=
  shortestAux_roundtrip x _ hx _ _

theorem shortest_mono (a b : Nat) (ha : f64Round a = a) (hb : f64Round b = b) (h : a ≤ b) :
    shortest a ≤ shortest b := by
  rcases Nat.eq_or_lt_of_le h with rfl | hlt
  · exact le_refl _
  · by_contra hc
    have := f64Round_mono (shortest b) (shortest a) (by omega)
    rw [shortest_roundtrip a ha, shortest_roundtrip b hb] at this
    omega

theorem shortest_ge (x : Nat) (hx : f64Round x = x) (h : 10 ^ 21 ≤ x) : 10 ^ 21 ≤ shortest x := by
  rcases Nat.eq_or_lt_of_le h with heq | hlt
  · rw [← heq]; decide
  · by_contra hc
    have h1 := f64Round_mono (shortest x) (10 ^ 21) (by omega)
    have h2 : f64Round (10 ^ 21) = 10 ^ 21 := by decide
    rw [shortest_roundtrip x hx, h2] at h1
    omega

/-! ## The quantity `formatNumber` displays -/

theorem formatNumber_nat_small (m : Nat) (h : m < 1000) :
    formatNumber (.num (m : Int)) = Nat.repr m := by
  have : formatNumber (.num (m : Int)) = numberToString m := by
    simp [formatNumber, JSValue.truthy, JSValue.strictNeZero, JSValue.toNumber, JSValue.toStr]
    rw [if_neg (by omega), if_neg (by omega), if_neg (by omega)]
  rw [this, numberToString_of_lt _ (by omega)]

theorem formatNumber_nat_thousands (m : Nat) (h1 : 1000 ≤ m) (h2 : m < 1000000) :
    formatNumber (.num (m : Int)) = toFixed1 (f64Div m 1000) ++ "K" := by
  simp [formatNumber, JSValue.truthy, JSValue.strictNeZero, JSValue.toNumber]
  rw [if_neg (by omega), if_pos h1]

theorem formatNumber_nat_millions (m : Nat) (h1 : 1000000 ≤ m) :
    formatNumber (.num (m : Int)) = toFixed1 (f64Div m 1000000) ++ "M" := by
  simp [formatNumber, JSValue.truthy, JSValue.strictNeZero, JSValue.toNumber]
  intro h; omega

/-- A quotient of at least `10 ^ 21` is an integer-valued binary64 number. -/
theorem f64Div_large (p q : Nat) (hq : 0 < q) (hpq : q ≤ p)
    (h : 10 ^ 21 * (f64Div p q).2 ≤ (f64Div p q).1) :
    (f64Div p q).2 = 1 ∧
      f64Round ((f64Div p q).1 / (f64Div p q).2) = (f64Div p q).1 / (f64Div p q).2 := by
  obtain ⟨b1, b2, b3⟩ := f64Div_bounds p q hq hpq
  have he : ¬ binade p q ≤ 52 := by
    intro hc
    have h3 : 2 ^ (binade p q + 1) ≤ 2 ^ 53 := Nat.pow_le_pow_right (by norm_num) (by omega)
    have h4 : 2 ^ (binade p q + 1) * (f64Div p q).2 ≤ 2 ^ 53 * (f64Div p q).2 :=
      Nat.mul_le_mul_right _ h3
    have h5 : 2 ^ 53 * (f64Div p q).2 < 10 ^ 21 * (f64Div p q).2 :=
      Nat.mul_lt_mul_of_pos_right (by norm_num) b3
    omega
  have hC : 0 < 2 ^ (binade p q - 52) := by positivity
  have e1 : 2 ^ binade p q = 2 ^ 52 * 2 ^ (binade p q - 52) := by
    rw [← Nat.pow_add]; congr 1; omega
  have e2 : 2 ^ (binade p q + 1) = 2 ^ 53 * 2 ^ (binade p q - 52) := by
    rw [← Nat.pow_add]; congr 1; omega
  unfold f64Div at b1 b2 ⊢
  simp only [he, if_false, Nat.mul_one, Nat.div_one] at b1 b2 ⊢
  refine ⟨trivial, f64Round_scaled _ _ ?_ ?_⟩
  · rw [e1] at b1; exact Nat.le_of_mul_le_mul_right b1 hC
  · rw [e2] at b2; exact Nat.le_of_mul_le_mul_right b2 hC

theorem readBack_small (n : Nat) (h : n < 1000) :
    readBack (formatNumber (.num (n : Int))) = some ((n : Nat) : ℚ) := by
  rw [formatNumber_nat_small n h, readBack_repr]

theorem readBack_thousands (n : Nat) (h1 : 1000 ≤ n) (h2 : n < 1000000) :
    readBack (formatNumber (.num (n : Int))) =
      some ((100 * tenthsOf (f64Div n 1000) : Nat) : ℚ) := by
  obtain ⟨hb1, hb2⟩ := binade_spec n 1000 (by norm_num) h1
  obtain ⟨b1, b2, b3⟩ := f64Div_bounds n 1000 (by norm_num) h1
  have he : binade n 1000 ≤ 9 := by
    by_contra hc
    have : 2 ^ 10 ≤ 2 ^ binade n 1000 := Nat.pow_le_pow_right (by norm_num) (by omega)
    omega
  have hlt : ¬ 10 ^ 21 * (f64Div n 1000).2 ≤ (f64Div n 1000).1 := by
    have h3 : 2 ^ (binade n 1000 + 1) ≤ 2 ^ 10 := Nat.pow_le_pow_right (by norm_num) (by omega)
    have h4 := Nat.mul_le_mul_right (f64Div n 1000).2 h3
    have h5 : 2 ^ 10 * (f64Div n 1000).2 < 10 ^ 21 * (f64Div n 1000).2 :=
      Nat.mul_lt_mul_of_pos_right (by norm_num) b3
    omega
  rw [formatNumber_nat_thousands n h1 h2]
  simp only [toFixed1, hlt, if_false]
  have := readBack_tenths (tenthsOf (f64Div n 1000)) 'K' (Or.inl rfl)
  rw [show ("K" : String) = String.mk ['K'] from rfl, this]
  simp only [if_true]
  congr 1
  push_cast
  ring

theorem readBack_millions (n : Nat) (h1 : 1000000 ≤ n)
    (hlt : ¬ 10 ^ 21 * (f64Div n 1000000).2 ≤ (f64Div n 1000000).1) :
    readBack (formatNumber (.num (n : Int))) =
      some ((100000 * tenthsOf (f64Div n 1000000) : Nat) : ℚ) := by
  rw [formatNumber_nat_millions n h1]
  simp only [toFixed1, hlt, if_false]
  have := readBack_tenths (tenthsOf (f64Div n 1000000)) 'M' (Or.inr rfl)
  rw [show ("M" : String) = String.mk ['M'] from rfl, this]
  simp only [Char.reduceEq, if_false]
  congr 1
  push_cast
  ring

theorem readBack_huge (n : Nat) (h1 : 1000000 ≤ n)
    (hge : 10 ^ 21 * (f64Div n 1000000).2 ≤ (f64Div n 1000000).1) :
    readBack (formatNumber (.num (n : Int))) =
      some ((1000000 * shortest ((f64Div n 1000000).1 / (f64Div n 1000000).2) : Nat) : ℚ) := by
  rw [formatNumber_nat_millions n h1]
  simp only [toFixed1, hge, if_true]
  rw [readBack_numberToString]
  congr 1
  push_cast
  ring

theorem tenthsOf_thousands_bounds (n : Nat) (h1 : 1000 ≤ n) (h2 : n < 1000000) :
    10 ≤ tenthsOf (f64Div n 1000) ∧ tenthsOf (f64Div n 1000) ≤ 10000 := by
  obtain ⟨_, _, n3⟩ := f64Div_bounds n 1000 (by norm_num) h1
  constructor
  · have h0 : tenthsOf (f64Div 1000 1000) = 10 := by decide
    rw [← h0]
    exact tenthsOf_mono _ _ (by decide) n3 (f64Div_mono 1000 n 1000 (by norm_num) (by norm_num) h1)
  · have h0 : tenthsOf (f64Div 999999 1000) = 10000 := by decide
    rw [← h0]
    exact tenthsOf_mono _ _ n3 (by decide) (f64Div_mono n 999999 1000 (by norm_num) h1 (by omega))

theorem tenthsOf_millions_ge (n : Nat) (h1 : 1000000 ≤ n) :
    10 ≤ tenthsOf (f64Div n 1000000) := by
  obtain ⟨_, _, n3⟩ := f64Div_bounds n 1000000 (by norm_num) h1
  have h0 : tenthsOf (f64Div 1000000 1000000) = 10 := by decide
  rw [← h0]
  exact tenthsOf_mono _ _ (by decide) n3
    (f64Div_mono 1000000 n 1000000 (by norm_num) (by norm_num) h1)

theorem tenthsOf_le_of_lt (x : Nat × Nat) (hx : 0 < x.2) (h : ¬ 10 ^ 21 * x.2 ≤ x.1) :
    tenthsOf x ≤ 10 ^ 22 := by
  unfold tenthsOf
  have : (20 * x.1 + x.2) / (2 * x.2) < 10 ^ 22 + 1 := by
    rw [Nat.div_lt_iff_lt_mul (by omega)]
    push_neg at h
    nlinarith
  omega

/-- The quantity displayed above the `M` threshold is at least one million. -/
theorem readBack_millions_ge (n : Nat) (h1 : 1000000 ≤ n) :
    ∃ Q : Nat, readBack (formatNumber (.num (n : Int))) = some (Q : ℚ) ∧ 1000000 ≤ Q := by
  by_cases hge : 10 ^ 21 * (f64Div n 1000000).2 ≤ (f64Div n 1000000).1
  · refine ⟨_, readBack_huge n h1 hge, ?_⟩
    obtain ⟨_, hr⟩ := f64Div_large n 1000000 (by norm_num) h1 hge
    obtain ⟨_, _, h3⟩ := f64Div_bounds n 1000000 (by norm_num) h1
    have hx : 10 ^ 21 ≤ (f64Div n 1000000).1 / (f64Div n 1000000).2 :=
      (Nat.le_div_iff_mul_le h3).mpr hge
    have := shortest_ge _ hr hx
    omega
  · refine ⟨_, readBack_millions n h1 hge, ?_⟩
    have := tenthsOf_millions_ge n h1
    omega

/-- Monotonicity of the displayed quantity within the `M` branch. -/
theorem readBack_millions_mono (a b : Nat) (ha : 1000000 ≤ a) (hab : a ≤ b) :
    ∃ Qa Qb : Nat, readBack (formatNumber (.num (a : Int))) = some (Qa : ℚ) ∧
      readBack (formatNumber (.num (b : Int))) = some (Qb : ℚ) ∧ Qa ≤ Qb := by
  have hb : 1000000 ≤ b := le_trans ha hab
  have hmono := f64Div_mono a b 1000000 (by norm_num) ha hab
  obtain ⟨_, _, a3⟩ := f64Div_bounds a 1000000 (by norm_num) ha
  obtain ⟨_, _, b3⟩ := f64Div_bounds b 1000000 (by norm_num) hb
  by_cases hga : 10 ^ 21 * (f64Div a 1000000).2 ≤ (f64Div a 1000000).1
  · have hgb : 10 ^ 21 * (f64Div b 1000000).2 ≤ (f64Div b 1000000).1 := by
      by_contra hc
      push_neg at hc
      have h1 : (f64Div b 1000000).1 * (f64Div a 1000000).2 <
          10 ^ 21 * (f64Div b 1000000).2 * (f64Div a 1000000).2 :=
        Nat.mul_lt_mul_of_pos_right hc a3
      have h2 : 10 ^ 21 * (f64Div a 1000000).2 * (f64Div b 1000000).2 ≤
          (f64Div a 1000000).1 * (f64Div b 1000000).2 := Nat.mul_le_mul_right _ hga
      have h3 : 10 ^ 21 * (f64Div b 1000000).2 * (f64Div a 1000000).2 =
          10 ^ 21 * (f64Div a 1000000).2 * (f64Div b 1000000).2 := by ring
      omega
    refine ⟨_, _, readBack_huge a ha hga, readBack_huge b hb hgb, ?_⟩
    obtain ⟨_, ra⟩ := f64Div_large a 1000000 (by norm_num) ha hga
    obtain ⟨_, rb⟩ := f64Div_large b 1000000 (by norm_num) hb hgb
    have hx := div_le_div_of_cross _ _ _ _ a3 b3 hmono
    exact Nat.mul_le_mul_left _ (shortest_mono _ _ ra rb hx)
  · by_cases hgb : 10 ^ 21 * (f64Div b 1000000).2 ≤ (f64Div b 1000000).1
    · refine ⟨_, _, readBack_millions a ha hga, readBack_huge b hb hgb, ?_⟩
      obtain ⟨_, rb⟩ := f64Div_large b 1000000 (by norm_num) hb hgb
      have hx : 10 ^ 21 ≤ (f64Div b 1000000).1 / (f64Div b 1000000).2 :=
        (Nat.le_div_iff_mul_le b3).mpr hgb
      have h1 := shortest_ge _ rb hx
      have h2 := tenthsOf_le_of_lt _ a3 hga
      omega
    · refine ⟨_, _, readBack_millions a ha hga, readBack_millions b hb hgb, ?_⟩
      exact Nat.mul_le_mul_left _ (tenthsOf_mono _ _ a3 b3 hmono)


/-- Sample readings: a plain count, the two suffixes, and a text that is not a
number. -/
theorem readBack_examples :
    readBack "999" = some 999 ∧ readBack "1.5K" = some 1500 ∧
    readBack "2.5M" = some 2500000 ∧ readBack "1000.0K" = some 1000000 ∧
    readBack "1e+21M" = some (10 ^ 27) ∧ readBack "--" = none := by
  refine ⟨?_, ?_, ?_, ?_, ?_, by decide⟩
  · have h := readBack_repr 999
    have e : Nat.repr 999 = "999" := by decide
    rw [e] at h; rw [h]; norm_num
  · have h := readBack_tenths 15 'K' (Or.inl rfl)
    have e : tenths 15 ++ String.mk ['K'] = "1.5K" := by decide
    rw [e] at h; rw [h]; norm_num
  · have h := readBack_tenths 25 'M' (Or.inr rfl)
    have e : tenths 25 ++ String.mk ['M'] = "2.5M" := by decide
    rw [e] at h; rw [h]; simp only [Char.reduceEq, if_false]; norm_num
  · have h := readBack_tenths 10000 'K' (Or.inl rfl)
    have e : tenths 10000 ++ String.mk ['K'] = "1000.0K" := by decide
    rw [e] at h; rw [h]; norm_num
  · have h := readBack_numberToString 1000000000000000000000
    have e : numberToString 1000000000000000000000 ++ "M" = "1e+21M" := by decide
    have e2 : shortest 1000000000000000000000 = 1000000000000000000000 := by decide
    rw [e, e2] at h; rw [h]; norm_num

/-- At a midpoint between two tenths the text follows the binary value of the
quotient: `1.15` is stored just below the midpoint and `1.05` just above it,
while `1.25` is stored exactly and goes up. -/
theorem formatNumber_midpoints :
    formatNumber (.num 1050) = "1.1K" ∧ formatNumber (.num 1150) = "1.1K" ∧
    formatNumber (.num 1250) = "1.3K" := by
  decide

/-! ## `formatNumber` -/

/-- C1: for every integer `n` with `1000 ≤ n < 1000000`, `formatNumber(n)` is a
count `k` of tenths written with one decimal place and followed by `K`, where
`k / 10` is a one-decimal number nearest to `n / 1000` (it differs from it by at
most one twentieth); and `formatNumber(1500)` is `1.5K`. -/
theorem formatNumber_thousands (n : Int) (h1 : 1000 ≤ n) (h2 : n < 1000000) :
    (∃ k : Nat, formatNumber (.num n) = tenths k ++ "K" ∧
      100 * (k : Int) ≤ n + 50 ∧ n ≤ 100 * (k : Int) + 50) ∧
    formatNumber (.num 1500) = "1.5K" := by
  refine ⟨?_, by decide⟩
  obtain ⟨m, rfl⟩ : ∃ m : Nat, n = (m : Int) := ⟨n.toNat, by omega⟩
  have hm1 : 1000 ≤ m := by exact_mod_cast h1
  have hm2 : m < 1000000 := by exact_mod_cast h2
  obtain ⟨hb1, hb2⟩ := binade_spec m 1000 (by norm_num) hm1
  have he : binade m 1000 ≤ 9 := by
    by_contra hc
    have : 2 ^ 10 ≤ 2 ^ binade m 1000 := Nat.pow_le_pow_right (by norm_num) (by omega)
    omega
  have hfmt := formatNumber_nat_thousands m hm1 hm2
  have hb : 10 * 50 < 2 ^ (52 - binade m 1000) := by
    have : 2 ^ 43 ≤ 2 ^ (52 - binade m 1000) := Nat.pow_le_pow_right (by norm_num) (by omega)
    omega
  obtain ⟨k, hk, t1, t2⟩ := toFixed1_f64Div_near 50 m (by norm_num) (by omega)
    (show binade m 1000 ≤ 52 by omega) hb
  exact ⟨k, by rw [hfmt]; exact congrArg (· ++ "K") hk, by omega, by omega⟩

/-- Witness for C1 at `n = 1150`, a midpoint between two tenths. -/
theorem formatNumber_thousands_witness :
    (1000 : Int) ≤ 1150 ∧ (1150 : Int) < 1000000 ∧
    ((∃ k : Nat, formatNumber (.num 1150) = tenths k ++ "K" ∧
      100 * (k : Int) ≤ 1150 + 50 ∧ (1150 : Int) ≤ 100 * (k : Int) + 50) ∧
    formatNumber (.num 1500) = "1.5K") :=
  ⟨by decide, by decide, formatNumber_thousands 1150 (by decide) (by decide)⟩

/-- C2, as amended: for every integer `n` with `1000000 ≤ n ≤ 2 ^ 53`,
`formatNumber(n)` is a count `k` of tenths written with one decimal place and
followed by `M`, where `k / 10` is a one-decimal number nearest to
`n / 1000000`; and `formatNumber(2500000)` is `2.5M`. -/
theorem formatNumber_millions (n : Int) (h1 : 1000000 ≤ n) (h2 : n ≤ 2 ^ 53) :
    (∃ k : Nat, formatNumber (.num n) = tenths k ++ "M" ∧
      100000 * (k : Int) ≤ n + 50000 ∧ n ≤ 100000 * (k : Int) + 50000) ∧
    formatNumber (.num 2500000) = "2.5M" := by
  refine ⟨?_, by decide⟩
  obtain ⟨m, rfl⟩ : ∃ m : Nat, n = (m : Int) := ⟨n.toNat, by omega⟩
  have hm1 : 1000000 ≤ m := by exact_mod_cast h1
  have hm2 : m ≤ 2 ^ 53 := by exact_mod_cast h2
  obtain ⟨hb1, hb2⟩ := binade_spec m 1000000 (by norm_num) hm1
  have he : binade m 1000000 ≤ 33 := by
    by_contra hc
    have : 2 ^ 34 ≤ 2 ^ binade m 1000000 := Nat.pow_le_pow_right (by norm_num) (by omega)
    omega
  have hfmt := formatNumber_nat_millions m hm1
  have hb : 10 * 50000 < 2 ^ (52 - binade m 1000000) := by
    have : 2 ^ 19 ≤ 2 ^ (52 - binade m 1000000) := Nat.pow_le_pow_right (by norm_num) (by omega)
    omega
  obtain ⟨k, hk, t1, t2⟩ := toFixed1_f64Div_near 50000 m (by norm_num) (by omega)
    (show binade m 1000000 ≤ 52 by omega) hb
  exact ⟨k, by rw [hfmt]; exact congrArg (· ++ "M") hk, by omega, by omega⟩

/-- Witness for the amended C2 at `n = 2 ^ 53`. -/
theorem formatNumber_millions_witness :
    (1000000 : Int) ≤ 9007199254740992 ∧ (9007199254740992 : Int) ≤ 2 ^ 53 ∧
    ((∃ k : Nat, formatNumber (.num 9007199254740992) = tenths k ++ "M" ∧
      100000 * (k : Int) ≤ 9007199254740992 + 50000 ∧
      (9007199254740992 : Int) ≤ 100000 * (k : Int) + 50000) ∧
    formatNumber (.num 2500000) = "2.5M") :=
  ⟨by decide, by decide, formatNumber_millions 9007199254740992 (by decide) (by decide)⟩

/-- C2 fails as stated: `2 ^ 90 = 1237940039285380274899124224` is a binary64
integer above `1000000`; its quotient by `1000000` is above `10 ^ 21`, where
`toFixed` falls back to `Number::toString`, so the text is
`1.2379400392853802e+21M` and not a one-decimal rendering of `n / 1000000`. -/
theorem formatNumber_millions_fails :
    isF64 1237940039285380274899124224 = true ∧
    (1000000 : Int) ≤ 1237940039285380274899124224 ∧
    formatNumber (.num 1237940039285380274899124224) = "1.2379400392853802e+21M" ∧
    ¬ ∃ k : Nat, formatNumber (.num 1237940039285380274899124224) = tenths k ++ "M" ∧
      100000 * (k : Int) ≤ 1237940039285380274899124224 + 50000 ∧
      (1237940039285380274899124224 : Int) ≤ 100000 * (k : Int) + 50000 := by
  refine ⟨by decide, by decide, by decide, ?_⟩
  rintro ⟨k, hk, hlo, hhi⟩
  have hfmt : formatNumber (.num 1237940039285380274899124224) = "1.2379400392853802e+21M" := by
    decide
  rw [hfmt] at hk
  have hk1 : 12379400392853802748991 ≤ k := by omega
  have hk2 : k ≤ 12379400392853802748991 := by omega
  have : k = 12379400392853802748991 := by omega
  subst this
  revert hk
  decide

/-- C3, as amended: for every integer `n` with `-(2 ^ 53) < n < 1000`, zero and
the negative ones included, `formatNumber(n)` is the plain decimal numeral of `n`
with no suffix; `formatNumber(999)` is `999` and `formatNumber(0)` is `0`. -/
theorem formatNumber_small (n : Int) (h1 : -(2 ^ 53) < n) (h2 : n < 1000) :
    formatNumber (.num n) = toString n ∧ formatNumber (.num 999) = "999" ∧
      formatNumber (.num 0) = "0" := by
  refine ⟨?_, by decide, by decide⟩
  cases n with
  | ofNat m =>
    simp only [Int.ofNat_eq_coe] at h1 h2 ⊢
    rw [formatNumber_nat_small m (by omega)]
    rfl
  | negSucc m =>
    have hneg := Int.negSucc_eq m
    have hm : m + 1 < 2 ^ 53 := by omega
    have : formatNumber (.num (Int.negSucc m)) = "-" ++ numberToString (m + 1) := by
      simp [formatNumber, JSValue.truthy, JSValue.strictNeZero, JSValue.toNumber, JSValue.toStr]
      rw [if_neg (by omega), if_neg (by omega), if_pos (by omega)]
    rw [this, numberToString_of_lt _ hm]
    rfl

/-- Witness for the amended C3 at `n = -5000`: a negative number gets no suffix. -/
theorem formatNumber_small_witness :
    -(2 ^ 53) < (-5000 : Int) ∧ (-5000 : Int) < 1000 ∧
    (formatNumber (.num (-5000)) = toString (-5000 : Int) ∧ formatNumber (.num 999) = "999" ∧
      formatNumber (.num 0) = "0") :=
  ⟨by decide, by decide, formatNumber_small (-5000) (by decide) (by decide)⟩

/-- C3 fails as stated: `-(2 ^ 64) = -18446744073709551616` is a binary64 integer
below `1000`, and `formatNumber` prints it with the shortest digits that read
back as the same Number, `-18446744073709552000`, which is not its decimal
numeral. -/
theorem formatNumber_small_fails :
    isF64 18446744073709551616 = true ∧
    (-18446744073709551616 : Int) < 1000 ∧
    formatNumber (.num (-18446744073709551616)) = "-18446744073709552000" ∧
    formatNumber (.num (-18446744073709551616)) ≠ toString (-18446744073709551616 : Int) := by
  decide

/-- C4: `formatNumber` returns the placeholder `--` for a missing metric
(`undefined`, `null`, and the falsy non-numbers `false` and `NaN`), and for
every integer `n` it returns a text other than `--`. -/
theorem formatNumber_placeholder :
    formatNumber .undefined = "--" ∧ formatNumber .null = "--" ∧
    formatNumber (.bool false) = "--" ∧ formatNumber .nan = "--" ∧
    ∀ n : Int, formatNumber (.num n) ≠ "--" := by
  refine ⟨by decide, by decide, by decide, by decide, ?_⟩
  intro n
  have hguard : (!(JSValue.num n).truthy && (JSValue.num n).strictNeZero) = false := by
    simp [JSValue.truthy, JSValue.strictNeZero]
  simp only [formatNumber, hguard, JSValue.toNumber]
  simp only [Bool.false_eq_true, if_false]
  split_ifs with h1 h2
  · exact append_suffix_ne_placeholder _ 'M' (by decide)
  · exact append_suffix_ne_placeholder _ 'K' (by decide)
  · simp only [JSValue.toStr]
    split_ifs with h3
    · intro hc
      have h2 := congrArg String.data hc
      simp only [String.data_append] at h2
      have : '-' ∈ (numberToString n.natAbs).data := by
        have h4 : (numberToString n.natAbs).data = ['-'] := by simpa using h2
        rw [h4]; simp
      exact numberToString_no_minus _ this
    · intro hc
      have : '-' ∈ (numberToString n.natAbs).data := by rw [hc]; decide
      exact numberToString_no_minus _ this

/-- C5: `formatNumber` is monotone in the quantity it displays: for all
non-negative integers `a ≤ b` both outputs read back as numbers (the decimal,
times 1000 for a `K` suffix, times 1000000 for an `M` suffix) and the quantity
displayed for `a` is at most the one displayed for `b`, also across the 1000 and
1000000 thresholds. -/
theorem formatNumber_monotone (a b : Nat) (hab : a ≤ b) :
    ∃ x y : ℚ, readBack (formatNumber (.num (a : Int))) = some x ∧
      readBack (formatNumber (.num (b : Int))) = some y ∧ x ≤ y := by
  suffices h : ∃ Qa Qb : Nat, readBack (formatNumber (.num (a : Int))) = some (Qa : ℚ) ∧
      readBack (formatNumber (.num (b : Int))) = some (Qb : ℚ) ∧ Qa ≤ Qb by
    obtain ⟨Qa, Qb, h1, h2, h3⟩ := h
    exact ⟨Qa, Qb, h1, h2, by exact_mod_cast h3⟩
  rcases Nat.lt_or_ge b 1000 with hb1 | hb1
  · exact ⟨a, b, readBack_small a (by omega), readBack_small b hb1, hab⟩
  rcases Nat.lt_or_ge b 1000000 with hb2 | hb2
  · rcases Nat.lt_or_ge a 1000 with ha1 | ha1
    · refine ⟨_, _, readBack_small a ha1, readBack_thousands b hb1 hb2, ?_⟩
      have := (tenthsOf_thousands_bounds b hb1 hb2).1
      omega
    · refine ⟨_, _, readBack_thousands a ha1 (by omega), readBack_thousands b hb1 hb2, ?_⟩
      obtain ⟨_, _, a3⟩ := f64Div_bounds a 1000 (by norm_num) ha1
      obtain ⟨_, _, b3⟩ := f64Div_bounds b 1000 (by norm_num) hb1
      exact Nat.mul_le_mul_left _
        (tenthsOf_mono _ _ a3 b3 (f64Div_mono a b 1000 (by norm_num) ha1 hab))
  · rcases Nat.lt_or_ge a 1000 with ha1 | ha1
    · obtain ⟨Q, hQ, hQ2⟩ := readBack_millions_ge b hb2
      exact ⟨_, Q, readBack_small a ha1, hQ, by omega⟩
    rcases Nat.lt_or_ge a 1000000 with ha2 | ha2
    · obtain ⟨Q, hQ, hQ2⟩ := readBack_millions_ge b hb2
      refine ⟨_, Q, readBack_thousands a ha1 ha2, hQ, ?_⟩
      have := (tenthsOf_thousands_bounds a ha1 ha2).2
      omega
    · exact readBack_millions_mono a b ha2 hab

/-- Witness for C5 across both thresholds: 999 is shown as `999` and 2500000 as
`2.5M`. -/
theorem formatNumber_monotone_witness :
    999 ≤ 2500000 ∧
    ∃ x y : ℚ, readBack (formatNumber (.num ((999 : Nat) : Int))) = some x ∧
      readBack (formatNumber (.num ((2500000 : Nat) : Int))) = some y ∧ x ≤ y :=
  ⟨by decide, formatNumber_monotone 999 2500000 (by decide)⟩

/-! ## `getTimeGreeting` -/

/-- C6: for every local hour `h` and every user display name `s`,
`getTimeGreeting` returns `G + ", " + s` where `G` is `Good morning` below 12,
`Good afternoon` from 12 to 17 and `Good evening` from 18 on; hour 9 with the
name `Alice` gives `Good morning, Alice` and hour 20 gives
`Good evening, Alice`. -/
theorem getTimeGreeting_spec :
    (∀ (h : Nat) (s : String),
      getTimeGreeting h (some { full_name := some s }) =
        (if h < 12 then "Good morning" else if h < 18 then "Good afternoon"
          else "Good evening") ++ ", " ++ s) ∧
    getTimeGreeting 9 (some { full_name := some "Alice" }) = "Good morning, Alice" ∧
    getTimeGreeting 20 (some { full_name := some "Alice" }) = "Good evening, Alice" := by
  refine ⟨fun h s => rfl, by decide, by decide⟩

/-! ## The session store -/

/-- C7: from any session state, `login(t, u)` completes without an error and
leaves the in-memory token `t`, the in-memory user `u`, the stored `token`
entry `t` and the stored `user` entry the serialization of `u`; `loading` and
the count of requests sent are as before. -/
theorem login_spec (t : String) (u : UserProfile) (s : Session) :
    (login t u).run.run s =
      (.ok (), { s with token := some t, user := some u, storedToken := some t,
                        storedUser := some (jsonStringify u) }) := by
  rfl

/-- C8, as amended: for every non-empty token `t` and every user `u`, after
`login(t, u)` the `isAuthenticated` flag is true. -/
theorem login_isAuthenticated (t : String) (u : UserProfile) (s : Session) (ht : t ≠ "") :
    isAuthenticated ((login t u).run.run s).2 = true := by
  show truthyString (some t) = true
  simpa [truthyString] using ht

/-- Witness for the amended C8 with the token `abc`. -/
theorem login_isAuthenticated_witness :
    "abc" ≠ "" ∧
    isAuthenticated ((login "abc" { full_name := some "Alice" }).run.run
      { user := none, token := none, loading := true, storedToken := none,
        storedUser := none, requests := 0 }).2 = true :=
  ⟨by decide, login_isAuthenticated "abc" _ _ (by decide)⟩

/-- C8 fails as stated: after `login("", u)` the token is the empty string,
which is falsy, so `isAuthenticated` is false. -/
theorem login_isAuthenticated_fails :
    isAuthenticated ((login "" { full_name := some "Alice" }).run.run
      { user := none, token := none, loading := true, storedToken := none,
        storedUser := none, requests := 0 }).2 = false := by
  rfl

/-- C9: from every session state and whatever the request to the logout
endpoint comes to (a success response, an error response, a network failure),
`logout()` completes without an error, the in-memory token and user are null,
the stored `token` and `user` entries are absent and `isAuthenticated` is
false; `loading` is as before and one request was sent. -/
theorem logout_spec (r : FetchOutcome) (s : Session) :
    (logout r).run.run s =
      (.ok (), { s with token := none, user := none, storedToken := none,
                        storedUser := none, requests := s.requests + 1 }) ∧
    isAuthenticated ((logout r).run.run s).2 = false := by
  cases r <;> exact ⟨rfl, rfl⟩

/-- C10, as amended: for every non-empty stored token `t` and every stored user
text that is the serialization of a profile `u`, if the verify endpoint answers
with a success status and a JSON body then `verifyStoredToken` completes
without an error, the in-memory token is `t`, the in-memory user is `u`, both
stored entries are as before, `loading` is false and one request was sent. -/
theorem verifyStoredToken_success (t : String) (u : UserProfile) (s : Session)
    (ht : t ≠ "") (h1 : s.storedToken = some t) (h2 : s.storedUser = some (jsonStringify u)) :
    (verifyStoredToken (.response true true)).run.run s =
      (.ok (), { s with token := some t, user := some u, loading := false,
                        requests := s.requests + 1 }) := by
  obtain ⟨user, token, loading, st, su, rq⟩ := s
  simp only at h1 h2
  subst h1 h2
  have hg : (truthyString (some t) && truthyText (some (jsonStringify u))) = true := by
    simpa [truthyString, truthyText, jsonStringify] using ht
  simp only [verifyStoredToken, bind, ExceptT.bind, ExceptT.mk, ExceptT.run, StateT.run,
    StateT.bind, get, getThe, MonadStateOf.get, liftM, monadLift, MonadLift.monadLift,
    ExceptT.lift, StateT.get, Functor.map, StateT.map, ExceptT.bindCont, pure, StateT.pure,
    hg, if_true]
  rfl

/-- Witness for the amended C10. -/
theorem verifyStoredToken_success_witness :
    "tok" ≠ "" ∧
    (verifyStoredToken (.response true true)).run.run
      { user := none, token := none, loading := true, storedToken := some "tok",
        storedUser := some (jsonStringify { full_name := some "Alice" }), requests := 0 } =
      (.ok (), { user := some { full_name := some "Alice" }, token := some "tok",
                 loading := false, storedToken := some "tok",
                 storedUser := some (jsonStringify { full_name := some "Alice" }),
                 requests := 1 }) :=
  ⟨by decide, verifyStoredToken_success "tok" _ _ (by decide) rfl rfl⟩

/-- C10 fails as stated: with the stored user text `x`, which is not JSON, a
success answer ends with both stored entries removed and no user in memory
(`JSON.parse` throws after the token was set); and with a success status whose
body is not JSON both entries are removed and nothing is set in memory. -/
theorem verifyStoredToken_success_fails :
    (verifyStoredToken (.response true true)).run.run
      { user := none, token := none, loading := true, storedToken := some "tok",
        storedUser := some (.raw "x"), requests := 0 } =
      (.ok (), { user := none, token := some "tok", loading := false, storedToken := none,
                 storedUser := none, requests := 1 }) ∧
    (verifyStoredToken (.response true false)).run.run
      { user := none, token := none, loading := true, storedToken := some "tok",
        storedUser := some (jsonStringify { full_name := some "Alice" }), requests := 0 } =
      (.ok (), { user := none, token := none, loading := false, storedToken := none,
                 storedUser := none, requests := 1 }) := by
  exact ⟨rfl, rfl⟩


/-! ## The session store: failed verification -/

/-- C11: when both stored entries are present and non-empty, so that the request
is sent, and the verify endpoint answers with a non-success status or the
request fails, `verifyStoredToken` completes without an error, both stored
entries are absent, `loading` is false, and exactly one request was sent. -/
theorem verifyStoredToken_failure (s : Session) (b : Bool)
    (h : (truthyString s.storedToken && truthyText s.storedUser) = true) :
    (verifyStoredToken (.response false b)).run.run s =
      (.ok (), { s with storedToken := none, storedUser := none, loading := false,
                        requests := s.requests + 1 }) ∧
    (verifyStoredToken .rejected).run.run s =
      (.ok (), { s with storedToken := none, storedUser := none, loading := false,
                        requests := s.requests + 1 }) := by
  obtain ⟨user, token, loading, st, su, rq⟩ := s
  simp only at h
  constructor <;>
  · simp only [verifyStoredToken, bind, ExceptT.bind, ExceptT.mk, ExceptT.run, StateT.run,
      StateT.bind, get, getThe, MonadStateOf.get, liftM, monadLift, MonadLift.monadLift,
      ExceptT.lift, StateT.get, Functor.map, StateT.map, ExceptT.bindCont, pure, StateT.pure,
      h, if_true]
    rfl

/-- Witness for C11: a stored session that the server rejects. -/
theorem verifyStoredToken_failure_witness :
    (truthyString (some "tok") &&
      truthyText (some (jsonStringify { full_name := some "Alice" }))) = true ∧
    ((verifyStoredToken (.response false true)).run.run
        (initialSession (some "tok") (some (jsonStringify { full_name := some "Alice" }))) =
      (.ok (), { initialSession (some "tok") (some (jsonStringify { full_name := some "Alice" }))
                 with storedToken := none, storedUser := none, loading := false,
                      requests := 0 + 1 }) ∧
    (verifyStoredToken .rejected).run.run
        (initialSession (some "tok") (some (jsonStringify { full_name := some "Alice" }))) =
      (.ok (), { initialSession (some "tok") (some (jsonStringify { full_name := some "Alice" }))
                 with storedToken := none, storedUser := none, loading := false,
                      requests := 0 + 1 })) :=
  ⟨by decide, verifyStoredToken_failure _ true (by decide)⟩

/-- C12, as amended: a failed verification (a non-success answer or a failed
request) leaves the in-memory token and user as they were, so `isAuthenticated`
is what it was before; at application start, where nothing is in memory, it is
false afterwards. -/
theorem verifyStoredToken_failure_memory (s : Session) (b : Bool) :
    ((verifyStoredToken (.response false b)).run.run s).2.token = s.token ∧
    ((verifyStoredToken (.response false b)).run.run s).2.user = s.user ∧
    isAuthenticated ((verifyStoredToken (.response false b)).run.run s).2 = isAuthenticated s ∧
    ((verifyStoredToken .rejected).run.run s).2.token = s.token ∧
    ((verifyStoredToken .rejected).run.run s).2.user = s.user ∧
    isAuthenticated ((verifyStoredToken .rejected).run.run s).2 = isAuthenticated s ∧
    (∀ t u, isAuthenticated
      ((verifyStoredToken (.response false b)).run.run (initialSession t u)).2 = false) ∧
    (∀ t u, isAuthenticated
      ((verifyStoredToken .rejected).run.run (initialSession t u)).2 = false) := by
  have key : ∀ (r : FetchOutcome) (s : Session), (r = .response false b ∨ r = .rejected) →
      ((verifyStoredToken r).run.run s).2.token = s.token ∧
      ((verifyStoredToken r).run.run s).2.user = s.user := by
    intro r s hr
    obtain ⟨user, token, loading, st, su, rq⟩ := s
    cases hg : (truthyString st && truthyText su) <;> rcases hr with rfl | rfl <;>
    · simp only [verifyStoredToken, bind, ExceptT.bind, ExceptT.mk, ExceptT.run, StateT.run,
        StateT.bind, get, getThe, MonadStateOf.get, liftM, monadLift, MonadLift.monadLift,
        ExceptT.lift, StateT.get, Functor.map, StateT.map, ExceptT.bindCont, pure, StateT.pure,
        hg]
      exact ⟨rfl, rfl⟩
  have auth : ∀ (r : FetchOutcome) (s : Session), (r = .response false b ∨ r = .rejected) →
      isAuthenticated ((verifyStoredToken r).run.run s).2 = isAuthenticated s := by
    intro r s hr
    unfold isAuthenticated
    rw [(key r s hr).1]
  refine ⟨(key _ s (Or.inl rfl)).1, (key _ s (Or.inl rfl)).2, auth _ s (Or.inl rfl),
    (key _ s (Or.inr rfl)).1, (key _ s (Or.inr rfl)).2, auth _ s (Or.inr rfl), ?_, ?_⟩
  · intro t u; rw [auth _ _ (Or.inl rfl)]; rfl
  · intro t u; rw [auth _ _ (Or.inr rfl)]; rfl

/-- C12 fails as stated: after `login("tok", u)` from the state at application
start, a verification that the server rejects (or that fails on the network)
removes the stored entries but leaves the token in memory, so `isAuthenticated`
is still true. -/
theorem verifyStoredToken_failure_memory_fails :
    ((do login "tok" { full_name := some "Alice" }
         verifyStoredToken (.response false true) : Auth Unit).run.run
        (initialSession none none)) =
      (.ok (), { user := some { full_name := some "Alice" }, token := some "tok",
                 loading := false, storedToken := none, storedUser := none, requests := 1 }) ∧
    isAuthenticated ((do login "tok" { full_name := some "Alice" }
                         verifyStoredToken (.response false true) : Auth Unit).run.run
        (initialSession none none)).2 = true ∧
    isAuthenticated ((do login "tok" { full_name := some "Alice" }
                         verifyStoredToken .rejected : Auth Unit).run.run
        (initialSession none none)).2 = true := by
  exact ⟨rfl, rfl, rfl⟩

/-! ## The analytics cache -/

theorem lookup_own {α : Type} (obj : String → Option α) (key : String) (v : α)
    (h : obj key = some v) : lookup obj key = .own v := by
  simp [lookup, h]

theorem lookup_undefined {α : Type} (obj : String → Option α) (key : String)
    (h1 : obj key = none) (h2 : key ∉ objectPrototypeNames) : lookup obj key = .undefined := by
  simp [lookup, h1, h2]

/-- One selection of a platform that is cached. -/
theorem handlePlatformToggle_own (p : String) (x : Payload) (s : Dashboard)
    (h : s.analyticsData p = some x) :
    (handlePlatformToggle p).run.run s =
      (.ok (), { s with activePlatform := p,
                        timers := s.timers ++ [{ platform := p, data := .own x }] }) := by
  obtain ⟨hd, ap, ad, l, al, rq, tm⟩ := s
  simp only at h
  simp only [handlePlatformToggle, bind, ExceptT.bind, ExceptT.mk, ExceptT.run, StateT.run,
    StateT.bind, get, getThe, MonadStateOf.get, liftM, monadLift, MonadLift.monadLift,
    ExceptT.lift, StateT.get, Functor.map, StateT.map, ExceptT.bindCont, pure, StateT.pure,
    modify, modifyGet, MonadStateOf.modifyGet, StateT.modifyGet, ExceptT.pure,
    lookup_own ad p x h, Lookup.truthy]
  rfl

theorem repeatToggle_own (p : String) (x : Payload) : ∀ (n : Nat) (s : Dashboard),
    s.analyticsData p = some x →
    (repeatToggle p n).run.run s =
      (.ok (), { s with activePlatform := if n = 0 then s.activePlatform else p,
                        timers := s.timers ++ List.replicate n { platform := p, data := .own x } })
  | 0, s, _ => by simp [repeatToggle]
  | n + 1, s, h => by
    have h1 := handlePlatformToggle_own p x s h
    have h2 := repeatToggle_own p x n
      { s with activePlatform := p, timers := s.timers ++ [{ platform := p, data := .own x }] } h
    simp only [repeatToggle, bind, ExceptT.bind, ExceptT.mk, ExceptT.run, StateT.run,
      StateT.bind, ExceptT.bindCont] at h1 h2 ⊢
    rw [h1]
    simp only
    rw [h2]
    simp [List.replicate_succ, List.append_assoc]

/-- C13: for every platform `p` with a cached payload `x`, `handlePlatformToggle(p)`
sends no request, makes `p` the active platform, leaves every entry of the cache
as it was and puts a render of `p`'s charts from `x` on a timer; and after any
number `n` of selections in a row the log of requests and the cache are still
as before, with `n` renders on timers. -/
theorem handlePlatformToggle_cached (p : String) (x : Payload) (s : Dashboard)
    (h : s.analyticsData p = some x) :
    (handlePlatformToggle p).run.run s =
      (.ok (), { s with activePlatform := p,
                        timers := s.timers ++ [{ platform := p, data := .own x }] }) ∧
    ((handlePlatformToggle p).run.run s).2.requests = s.requests ∧
    ((handlePlatformToggle p).run.run s).2.analyticsData = s.analyticsData ∧
    ∀ n : Nat,
      ((repeatToggle p n).run.run s).1 = .ok () ∧
      ((repeatToggle p n).run.run s).2.requests = s.requests ∧
      ((repeatToggle p n).run.run s).2.analyticsData = s.analyticsData ∧
      ((repeatToggle p n).run.run s).2.timers =
        s.timers ++ List.replicate n { platform := p, data := .own x } := by
  have h1 := handlePlatformToggle_own p x s h
  refine ⟨h1, by rw [h1], by rw [h1], fun n => ?_⟩
  rw [repeatToggle_own p x n s h]
  exact ⟨rfl, rfl, rfl, rfl⟩

/-- Witness for C13: facebook selected three times while its payload is cached. -/
theorem handlePlatformToggle_cached_witness :
    ({ initialDashboard with
        analyticsData := setEntry initialDashboard.analyticsData "facebook" {} } : Dashboard
      ).analyticsData "facebook" = some {} ∧
    ((handlePlatformToggle "facebook").run.run
      { initialDashboard with
        analyticsData := setEntry initialDashboard.analyticsData "facebook" {} }).2.requests = [] ∧
    ((repeatToggle "facebook" 3).run.run
      { initialDashboard with
        analyticsData := setEntry initialDashboard.analyticsData "facebook" {} }).2.requests = [] ∧
    ((repeatToggle "facebook" 3).run.run
      { initialDashboard with
        analyticsData := setEntry initialDashboard.analyticsData "facebook" {} }).2.timers =
      [] ++ List.replicate 3 { platform := "facebook", data := .own {} } :=
  have h := handlePlatformToggle_cached "facebook" {}
    { initialDashboard with
      analyticsData := setEntry initialDashboard.analyticsData "facebook" {} } rfl
  ⟨rfl, h.2.1, (h.2.2.2 3).2.1, (h.2.2.2 3).2.2.2⟩

/-- C14: for every platform `p`, window `d` and cache state, `handlePeriodChange(p, d)`
sends exactly one request, for `p` with window `d`, and leaves the cache as it
is; when that request comes back with a success status and the payload `x`, in
whatever state `t` the component is by then, the cache maps `p` to `x` and the
entry of every other platform is as it was in `t`. -/
theorem handlePeriodChange_spec (p : String) (d : Nat) (s : Dashboard) :
    (handlePeriodChange p d).run.run s =
      (.ok (), { s with analyticsLoading := true,
                        requests := s.requests ++ [.analytics p d] }) ∧
    ∀ (x : Payload) (t : Dashboard),
      (fetchAnalyticsSettle p (.response true (some x))).run.run t =
        (.ok (), { t with analyticsData := setEntry t.analyticsData p x,
                          timers := t.timers ++ [{ platform := p, data := .own x }],
                          analyticsLoading := false }) ∧
      setEntry t.analyticsData p x p = some x ∧
      (∀ q : String, q ≠ p → setEntry t.analyticsData p x q = t.analyticsData q) ∧
      ((fetchAnalyticsSettle p (.response true (some x))).run.run t).2.requests = t.requests := by
  refine ⟨rfl, fun x t => ⟨rfl, by simp [setEntry], fun q hq => by simp [setEntry, hq], rfl⟩⟩

/-- C15: for every platform `p` with no cached payload (facebook, instagram,
linkedin, or any other name that is not the name of a member every object
inherits), `handlePlatformToggle(p)` makes `p` the active platform and sends
exactly one request, for `p`, with a window of 14 days when `p` is instagram and
of 30 days otherwise; the request sent on mount is for facebook with a window of
30 days. -/
theorem handlePlatformToggle_uncached (p : String) (s : Dashboard)
    (h1 : s.analyticsData p = none) (h2 : p ∉ objectPrototypeNames) :
    (handlePlatformToggle p).run.run s =
      (.ok (), { s with activePlatform := p, analyticsLoading := true,
                        requests := s.requests ++
                          [.analytics p (if p = "instagram" then 14 else 30)] }) ∧
    mountAnalytics.run.run initialDashboard =
      (.ok (), { initialDashboard with analyticsLoading := true,
                                       requests := [.analytics "facebook" 30] }) := by
  refine ⟨?_, rfl⟩
  obtain ⟨hd, ap, ad, l, al, rq, tm⟩ := s
  simp only at h1
  simp only [handlePlatformToggle, bind, ExceptT.bind, ExceptT.mk, ExceptT.run, StateT.run,
    StateT.bind, get, getThe, MonadStateOf.get, liftM, monadLift, MonadLift.monadLift,
    ExceptT.lift, StateT.get, Functor.map, StateT.map, ExceptT.bindCont, pure, StateT.pure,
    modify, modifyGet, MonadStateOf.modifyGet, StateT.modifyGet, ExceptT.pure,
    lookup_undefined ad p h1 h2, Lookup.truthy]
  rfl

/-- Witness for C15: instagram selected first, with nothing cached. -/
theorem handlePlatformToggle_uncached_witness :
    initialDashboard.analyticsData "instagram" = none ∧
    "instagram" ∉ objectPrototypeNames ∧
    ((handlePlatformToggle "instagram").run.run initialDashboard =
      (.ok (), { initialDashboard with
                   activePlatform := "instagram", analyticsLoading := true,
                   requests := initialDashboard.requests ++
                     [.analytics "instagram" (if "instagram" = "instagram" then 14 else 30)] }) ∧
    mountAnalytics.run.run initialDashboard =
      (.ok (), { initialDashboard with analyticsLoading := true,
                                       requests := [.analytics "facebook" 30] })) :=
  ⟨rfl, by decide, handlePlatformToggle_uncached "instagram" initialDashboard rfl (by decide)⟩

/-! ## Charts -/

theorem chartIdTable_other (p : String)
    (h : p ∉ ["facebook", "instagram", "linkedin"]) : chartIdTable p = none := by
  simp only [List.mem_cons, List.mem_singleton, List.not_mem_nil, or_false, not_or] at h
  unfold chartIdTable
  split <;> simp_all

/-- C16, as amended: `getChartIdsForPlatform` maps facebook, instagram and
linkedin to their ordered lists of chart identifiers (3, 3 and 2 of them, the
eight pairwise distinct), and maps every other platform name to the empty list,
unless it is the name of a member every object inherits (`constructor`,
`toString`, ...). -/
theorem getChartIdsForPlatform_spec (p : String)
    (h1 : p ∉ ["facebook", "instagram", "linkedin"]) (h2 : p ∉ objectPrototypeNames) :
    getChartIdsForPlatform "facebook" =
      .own ["fb-fans-chart", "fb-engagement-chart", "fb-reach-chart"] ∧
    getChartIdsForPlatform "instagram" =
      .own ["ig-followers-chart", "ig-views-reach-chart", "ig-profile-activity-chart"] ∧
    getChartIdsForPlatform "linkedin" =
      .own ["ln-connections-chart", "ln-views-impressions-chart"] ∧
    (["fb-fans-chart", "fb-engagement-chart", "fb-reach-chart"].length = 3 ∧
      ["ig-followers-chart", "ig-views-reach-chart", "ig-profile-activity-chart"].length = 3 ∧
      ["ln-connections-chart", "ln-views-impressions-chart"].length = 2) ∧
    (["fb-fans-chart", "fb-engagement-chart", "fb-reach-chart",
      "ig-followers-chart", "ig-views-reach-chart", "ig-profile-activity-chart",
      "ln-connections-chart", "ln-views-impressions-chart"] : List String).Nodup ∧
    getChartIdsForPlatform p = .own [] := by
  refine ⟨by decide, by decide, by decide, by decide, by decide, ?_⟩
  simp [getChartIdsForPlatform, lookup_undefined chartIdTable p (chartIdTable_other p h1) h2,
    Lookup.truthy]

/-- Witness for the amended C16 with the name `tiktok`. -/
theorem getChartIdsForPlatform_spec_witness :
    "tiktok" ∉ ["facebook", "instagram", "linkedin"] ∧ "tiktok" ∉ objectPrototypeNames ∧
    getChartIdsForPlatform "tiktok" = .own [] :=
  ⟨by decide, by decide,
    (getChartIdsForPlatform_spec "tiktok" (by decide) (by decide)).2.2.2.2.2⟩

/-- C16 fails as stated: `constructor` is not one of the three platforms, and
`chartIds["constructor"]` is the member every object inherits, which is truthy,
so it is what `getChartIdsForPlatform` returns, not the empty list. -/
theorem getChartIdsForPlatform_spec_fails :
    "constructor" ∉ ["facebook", "instagram", "linkedin"] ∧
    getChartIdsForPlatform "constructor" = .inherited "constructor" ∧
    getChartIdsForPlatform "constructor" ≠ .own [] := by
  decide

/-- C17: for every platform and every payload, each chart's labels and each
series' values are the corresponding payload field when it is present and the
fixed placeholder when it is absent, each decided on its own; for the empty
payload the Facebook fans chart has the labels Jan..May and the values
1000, 1200, 1100, 1300, 1400, and for a payload with `fans_data` labels `L` and
values `V` it has exactly `L` and `V`. -/
theorem createCharts_fields (data : Payload) :
    (createFacebookCharts data).map (fun c => (c.elementId, c.labels, c.datasets.map (·.data))) =
      [ ("fb-fans-chart", labelsOr data.fans_data ["Jan", "Feb", "Mar", "Apr", "May"],
          [valuesOr data.fans_data [1000, 1200, 1100, 1300, 1400]]),
        ("fb-engagement-chart", labelsOr data.impressions_data ["Jan", "Feb", "Mar", "Apr", "May"],
          [valuesOr data.impressions_data [5000, 6000, 5500, 7000, 7500],
           valuesOr data.engagement_data [500, 600, 550, 700, 750]]),
        ("fb-reach-chart", labelsOr data.reach_data ["Jan", "Feb", "Mar", "Apr", "May"],
          [valuesOr data.reach_data [3000, 3500, 3200, 3800, 4000],
           valuesOr data.views_data [2000, 2200, 2100, 2400, 2500]]) ] ∧
    (createInstagramCharts data).map (fun c => (c.elementId, c.labels, c.datasets.map (·.data))) =
      [ ("ig-followers-chart",
          labelsOr data.followers_data ["Week 1", "Week 2", "Week 3", "Week 4"],
          [valuesOr data.followers_data [1500, 1600, 1550, 1700]]),
        ("ig-views-reach-chart",
          labelsOr data.views_data ["Week 1", "Week 2", "Week 3", "Week 4"],
          [valuesOr data.views_data [8000, 8500, 8200, 9000],
           valuesOr data.reach_data [6000, 6500, 6200, 7000]]),
        ("ig-profile-activity-chart",
          labelsOr data.profile_activity_data ["Mon", "Tue", "Wed", "Thu", "Fri"],
          [valuesOr data.profile_activity_data [150, 200, 180, 220, 190]]) ] ∧
    (createLinkedInCharts data).map (fun c => (c.elementId, c.labels, c.datasets.map (·.data))) =
      [ ("ln-connections-chart",
          labelsOr data.connections_data ["Jan", "Feb", "Mar", "Apr", "May"],
          [valuesOr data.connections_data [500, 550, 525, 600, 625]]),
        ("ln-views-impressions-chart",
          labelsOr data.views_data ["Jan", "Feb", "Mar", "Apr", "May"],
          [valuesOr data.views_data [300, 350, 325, 400, 425],
           valuesOr data.impressions_data [2000, 2200, 2100, 2400, 2500]]) ] ∧
    (∀ (field : Option Series) (fallback : List String),
      labelsOr field fallback = ((field.bind fun s => s.labels).getD fallback)) ∧
    (∀ (field : Option Series) (fallback : List Int),
      valuesOr field fallback = ((field.bind fun s => s.values).getD fallback)) ∧
    (∀ (l : Option (List String)) (v : Option (List Int)),
      ((createFacebookCharts { data with fans_data := some { labels := l, values := v } }).head?.map
        fun c => (c.labels, c.datasets.map (·.data))) =
      some (l.getD ["Jan", "Feb", "Mar", "Apr", "May"],
            [v.getD [1000, 1200, 1100, 1300, 1400]])) ∧
    ((createFacebookCharts {}).head?.map fun c => (c.labels, c.datasets.map (·.data))) =
      some (["Jan", "Feb", "Mar", "Apr", "May"], [[1000, 1200, 1100, 1300, 1400]]) ∧
    (∀ (L : List String) (V : List Int),
      ((createFacebookCharts { data with fans_data := some { labels := some L, values := some V } }
        ).head?.map fun c => (c.labels, c.datasets.map (·.data))) = some (L, [V])) := by
  refine ⟨rfl, rfl, rfl, ?_, ?_, ?_, rfl, fun _ _ => rfl⟩
  · intro field fallback
    unfold labelsOr
    cases h : (field.bind fun s => s.labels) <;> rfl
  · intro field fallback
    unfold valuesOr
    cases h : (field.bind fun s => s.values) <;> rfl
  · intro l v
    cases l <;> cases v <;> rfl

/-! ## The company cards -/

/-- C18: the company section is one placeholder card with the main text
`No companies yet` when the list of companies is empty, and otherwise one card
per company, in the order of the list, with the company's name, its creation
date and a link to `/company/{id}`; it is never empty. -/
theorem companyCards_spec :
    companyCards [] =
      [ { title := "Company", main := "No companies yet",
          subtitle := "Create your business profile", link := none } ] ∧
    (∀ (c : Company) (cs : List Company),
      companyCards (c :: cs) =
        (c :: cs).map fun company =>
          { title := "Company", main := company.name,
            subtitle := "Created on: " ++ company.created_at,
            link := some ("/company/" ++ numberToString company.id) }) ∧
    (∀ (c : Company) (cs : List Company), (companyCards (c :: cs)).length = (c :: cs).length) ∧
    (∀ cs : List Company, companyCards cs ≠ []) ∧
    companyCards [{ id := 7, name := "Acme", created_at := "2024-05-01" }] =
      [ { title := "Company", main := "Acme", subtitle := "Created on: 2024-05-01",
          link := some "/company/7" } ] := by
  refine ⟨rfl, fun c cs => by simp [companyCards], fun c cs => by simp [companyCards], ?_,
    by decide⟩
  intro cs
  cases cs with
  | nil => simp [companyCards]
  | cons c cs => simp [companyCards]

/-! ## The home summary -/

/-- C19: the home summary is replaced as a whole or not at all. With a success
status and a body whose `success` flag is set, each of the five fields is taken
from the body, an absent one becoming the empty list or 0; with a success flag
that is not set, a body that is not JSON, a non-success status or a failed
request the summary is as it was. In every case `fetchHomeData` completes
without an error, one request was sent, and `loading` is false. -/
theorem fetchHomeData_spec (s : Dashboard) (b : HomeBody) (body : Option HomeBody) :
    (fetchHomeData (.response true (some { b with success := true }))).run.run s =
      (.ok (), { s with
        homeData := { companies := b.companies.getD [],
                      total_budget := b.total_budget.getD 0,
                      total_approved := b.total_approved.getD 0,
                      total_archived := b.total_archived.getD 0,
                      total_strategies := b.total_strategies.getD 0 },
        loading := false, requests := s.requests ++ [.home] }) ∧
    (fetchHomeData (.response true (some { b with success := false }))).run.run s =
      (.ok (), { s with loading := false, requests := s.requests ++ [.home] }) ∧
    (fetchHomeData (.response true none)).run.run s =
      (.ok (), { s with loading := false, requests := s.requests ++ [.home] }) ∧
    (fetchHomeData (.response false body)).run.run s =
      (.ok (), { s with loading := false, requests := s.requests ++ [.home] }) ∧
    (fetchHomeData .rejected).run.run s =
      (.ok (), { s with loading := false, requests := s.requests ++ [.home] }) := by
  exact ⟨rfl, rfl, rfl, rfl, rfl⟩

/-! ## Failed analytics requests -/

/-- C20: for every platform `p`, window `d` and state, when the analytics
request comes back with a non-success status or fails (or its body is not
JSON), `fetchAnalyticsData` leaves the cache as it was and puts no render on a
timer; and whatever the request comes to, success included, it completes
without an error with `analyticsLoading` false. The same holds for the part that
runs when the response arrives, from any state. -/
theorem fetchAnalyticsData_failure (p : String) (d : Nat) (s : Dashboard)
    (body : Option Payload) (x : Payload) :
    (fetchAnalyticsData p d (.response false body)).run.run s =
      (.ok (), { s with analyticsLoading := false,
                        requests := s.requests ++ [.analytics p d] }) ∧
    (fetchAnalyticsData p d .rejected).run.run s =
      (.ok (), { s with analyticsLoading := false,
                        requests := s.requests ++ [.analytics p d] }) ∧
    (fetchAnalyticsData p d (.response true none)).run.run s =
      (.ok (), { s with analyticsLoading := false,
                        requests := s.requests ++ [.analytics p d] }) ∧
    ((fetchAnalyticsData p d (.response true (some x))).run.run s).1 = .ok () ∧
    ((fetchAnalyticsData p d (.response true (some x))).run.run s).2.analyticsLoading = false ∧
    (fetchAnalyticsSettle p (.response false body)).run.run s =
      (.ok (), { s with analyticsLoading := false }) ∧
    (fetchAnalyticsSettle p .rejected).run.run s =
      (.ok (), { s with analyticsLoading := false }) ∧
    (fetchAnalyticsSettle p (.response true none)).run.run s =
      (.ok (), { s with analyticsLoading := false }) := by
  exact ⟨rfl, rfl, rfl, rfl, rfl, rfl, rfl, rfl⟩

/-! ## Responses that arrive out of order -/

/-- C21: a superseded analytics request is not discarded. With two requests for
the same platform in flight (`d1` sent first, `d2` second) that both succeed,
the cache entry of the platform after both responses is the payload of the
response that arrived last: `x2` when the responses arrive in the order sent,
and `x1`, the answer to the older request, when they arrive the other way
round. In general, whatever the state `t` when a successful response with
payload `x` arrives, the entry is `x` afterwards. -/
theorem fetchAnalytics_last_response_wins (p : String) (d1 d2 : Nat) (x1 x2 : Payload)
    (s : Dashboard) :
    ((do fetchAnalyticsIssue p d1
         fetchAnalyticsIssue p d2
         fetchAnalyticsSettle p (.response true (some x1))
         fetchAnalyticsSettle p (.response true (some x2)) : Dash Unit).run.run s).2.analyticsData p
      = some x2 ∧
    ((do fetchAnalyticsIssue p d1
         fetchAnalyticsIssue p d2
         fetchAnalyticsSettle p (.response true (some x2))
         fetchAnalyticsSettle p (.response true (some x1)) : Dash Unit).run.run s).2.analyticsData p
      = some x1 ∧
    ((do fetchAnalyticsIssue p d1
         fetchAnalyticsIssue p d2
         fetchAnalyticsSettle p (.response true (some x2))
         fetchAnalyticsSettle p (.response true (some x1)) : Dash Unit).run.run s).2.requests
      = s.requests ++ [.analytics p d1, .analytics p d2] ∧
    ((do fetchAnalyticsIssue p d1
         fetchAnalyticsIssue p d2
         fetchAnalyticsSettle p (.response true (some x2))
         fetchAnalyticsSettle p (.response true (some x1)) : Dash Unit).run.run s).1 = .ok () ∧
    (∀ (t : Dashboard) (x : Payload),
      ((fetchAnalyticsSettle p (.response true (some x))).run.run t).2.analyticsData p = some x) := by
  refine ⟨?_, ?_, ?_, rfl, fun t x => ?_⟩
  · show setEntry _ p x2 p = some x2
    simp [setEntry]
  · show setEntry _ p x1 p = some x1
    simp [setEntry]
  · show s.requests ++ [Request.analytics p d1] ++ [Request.analytics p d2] = _
    simp
  · show setEntry _ p x p = some x
    simp [setEntry]

/-! ## Rounding up to the next unit -/

/-- C24: `formatNumber(999999)` is `1000.0K`: below 1000000 the one-decimal
rounding of the `K` branch can give the numeric part 1000.0, which it does from
999950 on, while 999949 still gives `999.9K`. -/
theorem formatNumber_thousands_overflow :
    formatNumber (.num 999999) = "1000.0K" ∧ (999999 : Int) < 1000000 ∧
    formatNumber (.num 999950) = "1000.0K" ∧ formatNumber (.num 999949) = "999.9K" ∧
    formatNumber (.num 1000000) = "1.0M" := by
  decide

/-! ## Pairing of the stored entries -/

/-- What an operation does to the stored entries: `login` writes both, `logout`
removes both, and `verifyStoredToken` leaves both or removes both. -/
theorem AuthOp.code_storage (op : AuthOp) (s : Session) :
    ((op.code.run.run s).2.storedToken = s.storedToken ∧
      (op.code.run.run s).2.storedUser = s.storedUser) ∨
    ((op.code.run.run s).2.storedToken = none ∧ (op.code.run.run s).2.storedUser = none) ∨
    ((op.code.run.run s).2.storedToken.isSome = true ∧
      (op.code.run.run s).2.storedUser.isSome = true) := by
  cases op with
  | login t u => exact Or.inr (Or.inr ⟨rfl, rfl⟩)
  | logout r => cases r <;> exact Or.inr (Or.inl ⟨rfl, rfl⟩)
  | verify r =>
    obtain ⟨user, token, loading, st, su, rq⟩ := s
    cases hg : (truthyString st && truthyText su)
    · left
      simp only [AuthOp.code, verifyStoredToken, bind, ExceptT.bind, ExceptT.mk, ExceptT.run,
        StateT.run, StateT.bind, get, getThe, MonadStateOf.get, liftM, monadLift,
        MonadLift.monadLift, ExceptT.lift, StateT.get, Functor.map, StateT.map,
        ExceptT.bindCont, pure, StateT.pure, hg]
      exact ⟨rfl, rfl⟩
    · rcases r with _ | ⟨ok, body⟩
      · right; left
        simp only [AuthOp.code, verifyStoredToken, bind, ExceptT.bind, ExceptT.mk, ExceptT.run,
          StateT.run, StateT.bind, get, getThe, MonadStateOf.get, liftM, monadLift,
          MonadLift.monadLift, ExceptT.lift, StateT.get, Functor.map, StateT.map,
          ExceptT.bindCont, pure, StateT.pure, hg, if_true]
        exact ⟨rfl, rfl⟩
      · cases ok <;> cases body <;>
        first
        | (right; left
           simp only [AuthOp.code, verifyStoredToken, bind, ExceptT.bind, ExceptT.mk,
             ExceptT.run, StateT.run, StateT.bind, get, getThe, MonadStateOf.get, liftM,
             monadLift, MonadLift.monadLift, ExceptT.lift, StateT.get, Functor.map, StateT.map,
             ExceptT.bindCont, pure, StateT.pure, hg, if_true]
           exact ⟨rfl, rfl⟩)
        | (rcases su with _ | ⟨u | raw⟩
           · simp [truthyText] at hg
           · left
             simp only [AuthOp.code, verifyStoredToken, bind, ExceptT.bind, ExceptT.mk,
               ExceptT.run, StateT.run, StateT.bind, get, getThe, MonadStateOf.get, liftM,
               monadLift, MonadLift.monadLift, ExceptT.lift, StateT.get, Functor.map,
               StateT.map, ExceptT.bindCont, pure, StateT.pure, hg, if_true]
             exact ⟨rfl, rfl⟩
           · right; left
             simp only [AuthOp.code, verifyStoredToken, bind, ExceptT.bind, ExceptT.mk,
               ExceptT.run, StateT.run, StateT.bind, get, getThe, MonadStateOf.get, liftM,
               monadLift, MonadLift.monadLift, ExceptT.lift, StateT.get, Functor.map,
               StateT.map, ExceptT.bindCont, pure, StateT.pure, hg, if_true]
             exact ⟨rfl, rfl⟩)

theorem AuthOp.code_paired (op : AuthOp) (s : Session) (h : storagePaired s = true) :
    storagePaired (op.code.run.run s).2 = true := by
  unfold storagePaired at h ⊢
  rcases AuthOp.code_storage op s with ⟨h1, h2⟩ | ⟨h1, h2⟩ | ⟨h1, h2⟩
  · rw [h1, h2]; exact h
  · rw [h1, h2]; rfl
  · rw [h1, h2]; rfl

theorem runOps_paired : ∀ (ops : List AuthOp) (s : Session), storagePaired s = true →
    storagePaired (runOps ops s) = true
  | [], _, h => h
  | op :: ops, s, h => runOps_paired ops _ (AuthOp.code_paired op s h)

/-- C23: starting from a session whose stored `token` and `user` are both absent
(whatever is in memory), after any finite sequence of `login`, `logout` and
`verifyStoredToken` operations, with any arguments and any server outcomes, the
two stored entries are both present or both absent. -/
theorem storage_stays_paired (ops : List AuthOp) (s : Session) :
    storagePaired (runOps ops { s with storedToken := none, storedUser := none }) = true ∧
    ((runOps ops { s with storedToken := none, storedUser := none }).storedToken.isSome ↔
      (runOps ops { s with storedToken := none, storedUser := none }).storedUser.isSome) := by
  have h := runOps_paired ops { s with storedToken := none, storedUser := none } rfl
  refine ⟨h, ?_⟩
  unfold storagePaired at h
  rw [beq_iff_eq] at h
  rw [h]

/-! ## The chart-id table and the chart constructors -/

theorem resetContainer_apply (dom : Dom) (c id : String) :
    resetContainer dom c id = if id = c then (dom c).map (fun _ => none) else dom id := by
  unfold resetContainer
  cases h : dom c with
  | none =>
    by_cases hid : id = c
    · simp [hid, h]
    · simp [hid]
  | some v => simp

theorem foldl_resetContainer : ∀ (ids : List String) (dom : Dom) (id : String),
    (ids.foldl resetContainer dom) id =
      if id ∈ ids then (dom id).map (fun _ => none) else dom id
  | [], dom, id => by simp
  | c :: rest, dom, id => by
    rw [List.foldl_cons, foldl_resetContainer rest (resetContainer dom c) id,
      resetContainer_apply]
    by_cases h1 : id = c
    · subst h1
      by_cases h2 : id ∈ rest
      · cases h : dom id <;> simp [h2, h]
      · simp [h2]
    · by_cases h2 : id ∈ rest
      · simp [h1, h2]
      · simp [h1, h2]

theorem createLineChart_apply (dom : Dom) (ch : LineChart) (id : String) :
    createLineChart dom ch id =
      if id = ch.elementId then
        (match dom id with
          | some none => some (some ch)
          | v => v)
      else dom id := by
  unfold createLineChart
  by_cases hid : id = ch.elementId
  · subst hid
    rcases h : dom ch.elementId with _ | _ | c <;> simp [h]
  · rcases h : dom ch.elementId with _ | _ | c <;> simp [hid]

theorem foldl_createLineChart : ∀ (charts : List LineChart) (dom : Dom),
    (charts.map (·.elementId)).Nodup →
    (∀ c ∈ charts, dom c.elementId = some none →
      (charts.foldl createLineChart dom) c.elementId = some (some c)) ∧
    (∀ id : String, dom id = none → (charts.foldl createLineChart dom) id = none) ∧
    (∀ id : String, id ∉ charts.map (·.elementId) →
      (charts.foldl createLineChart dom) id = dom id)
  | [], dom, _ => by simp
  | ch :: rest, dom, hnd => by
    rw [List.map_cons, List.nodup_cons] at hnd
    obtain ⟨hch, hrest⟩ := hnd
    obtain ⟨ih1, ih2, ih3⟩ := foldl_createLineChart rest (createLineChart dom ch) hrest
    refine ⟨?_, ?_, ?_⟩
    · intro c hc hfresh
      rw [List.foldl_cons]
      rcases List.mem_cons.mp hc with rfl | hc
      · rw [ih3 _ hch, createLineChart_apply]
        simp [hfresh]
      · apply ih1 c hc
        have hne : c.elementId ≠ ch.elementId := by
          intro heq
          exact hch (heq ▸ List.mem_map_of_mem (·.elementId) hc)
        rw [createLineChart_apply]
        simp [hne, hfresh]
    · intro id hid
      rw [List.foldl_cons]
      apply ih2
      rw [createLineChart_apply]
      by_cases h : id = ch.elementId <;> simp [h, hid]
      rw [← h, hid]
    · intro id hid
      rw [List.map_cons, List.mem_cons, not_or] at hid
      rw [List.foldl_cons, ih3 id hid.2, createLineChart_apply]
      simp [hid.1]

/-- One render of a list of charts on the containers of their identifiers. -/
theorem render_charts (charts : List LineChart) (dom : Dom)
    (hnd : (charts.map (·.elementId)).Nodup) :
    (∀ c ∈ charts, (dom c.elementId).isSome = true →
      (charts.foldl createLineChart ((charts.map (·.elementId)).foldl resetContainer dom))
        c.elementId = some (some c)) ∧
    (∀ c ∈ charts, dom c.elementId = none →
      (charts.foldl createLineChart ((charts.map (·.elementId)).foldl resetContainer dom))
        c.elementId = none) ∧
    (∀ id : String, id ∉ charts.map (·.elementId) →
      (charts.foldl createLineChart ((charts.map (·.elementId)).foldl resetContainer dom)) id
        = dom id) := by
  obtain ⟨h1, h2, h3⟩ := foldl_createLineChart charts
    ((charts.map (·.elementId)).foldl resetContainer dom) hnd
  refine ⟨?_, ?_, ?_⟩
  · intro c hc hpresent
    apply h1 c hc
    rw [foldl_resetContainer, if_pos (List.mem_map_of_mem (·.elementId) hc)]
    cases h : dom c.elementId with
    | none => simp [h] at hpresent
    | some v => rfl
  · intro c hc habsent
    apply h2
    rw [foldl_resetContainer, if_pos (List.mem_map_of_mem (·.elementId) hc), habsent]
    rfl
  · intro id hid
    rw [h3 id hid, foldl_resetContainer, if_neg hid]

/-- C22: the chart-id table and the chart constructors agree. For each of
facebook, instagram and linkedin and any payload, the element identifiers passed
to `createLineChart` by the platform's constructor are the list
`getChartIdsForPlatform` gives, in the same order. Hence after
`renderChartsForPlatform`, from any document: a container that was in the
document (and so was reset) holds exactly the constructor's chart for its
identifier, a container that is not in the document stays absent, and an
identifier outside the platform's list is left as it was. -/
theorem chartIds_agree (data : Payload) (dom : Dom) :
    (getChartIdsForPlatform "facebook" =
        .own ((createFacebookCharts data).map (·.elementId)) ∧
      getChartIdsForPlatform "instagram" =
        .own ((createInstagramCharts data).map (·.elementId)) ∧
      getChartIdsForPlatform "linkedin" =
        .own ((createLinkedInCharts data).map (·.elementId))) ∧
    (∀ (platform : String) (charts : List LineChart),
      (platform = "facebook" ∧ charts = createFacebookCharts data ∨
        platform = "instagram" ∧ charts = createInstagramCharts data ∨
        platform = "linkedin" ∧ charts = createLinkedInCharts data) →
      (∀ c ∈ charts, (dom c.elementId).isSome = true →
        renderChartsForPlatform platform (.own data) true dom c.elementId = some (some c)) ∧
      (∀ c ∈ charts, dom c.elementId = none →
        renderChartsForPlatform platform (.own data) true dom c.elementId = none) ∧
      (∀ id : String, id ∉ charts.map (·.elementId) →
        renderChartsForPlatform platform (.own data) true dom id = dom id)) := by
  refine ⟨⟨rfl, rfl, rfl⟩, ?_⟩
  rintro platform charts (⟨rfl, rfl⟩ | ⟨rfl, rfl⟩ | ⟨rfl, rfl⟩)
  · have hnd : ((createFacebookCharts data).map (·.elementId)).Nodup := by
      show (["fb-fans-chart", "fb-engagement-chart", "fb-reach-chart"] : List String).Nodup
      decide
    exact render_charts (createFacebookCharts data) dom hnd
  · have hnd : ((createInstagramCharts data).map (·.elementId)).Nodup := by
      show (["ig-followers-chart", "ig-views-reach-chart", "ig-profile-activity-chart"] :
        List String).Nodup
      decide
    exact render_charts (createInstagramCharts data) dom hnd
  · have hnd : ((createLinkedInCharts data).map (·.elementId)).Nodup := by
      show (["ln-connections-chart", "ln-views-impressions-chart"] : List String).Nodup
      decide
    exact render_charts (createLinkedInCharts data) dom hnd

/-! ## Rates and percentages -/

/-- C25: the rate and percentage cells do not go through `formatNumber`: each
shows `rateText` of its field. An absent field and a field that is 0 both show
`--%`, and every non-zero Number `r` shows its text followed by `%`, with no
`K` or `M` abbreviation; `formatNumber`, in contrast, shows 0 as `0`. -/
theorem rateText_spec (analyticsData : String → Option Payload) :
    rateCells analyticsData =
      [ ("fb-growth-rate", rateText ((analyticsData "facebook").bind (·.growth_rate))),
        ("ig-growth-rate", rateText ((analyticsData "instagram").bind (·.growth_rate))),
        ("ig-stories-percent",
          rateText (((analyticsData "instagram").bind (·.content_breakdown)).bind
            (·.stories_percentage))),
        ("ig-posts-percent",
          rateText (((analyticsData "instagram").bind (·.content_breakdown)).bind
            (·.posts_percentage))),
        ("ln-engagement-rate", rateText ((analyticsData "linkedin").bind (·.engagement_rate))),
        ("ln-growth-rate", rateText ((analyticsData "linkedin").bind (·.growth_rate))),
        ("ln-tech-percent",
          rateText (((analyticsData "linkedin").bind (·.industry_data)).bind (·.tech))),
        ("ln-finance-percent",
          rateText (((analyticsData "linkedin").bind (·.industry_data)).bind (·.finance))) ] ∧
    rateText none = "--%" ∧
    rateText (some { digits := 0 }) = "--%" ∧
    (∀ r : JsonNumber, rateText (some r) = if r.isZero then "--%" else r.text ++ "%") ∧
    (∀ (negative : Bool) (exp10 : Int),
      JsonNumber.isZero { negative := negative, digits := 0, exp10 := exp10 } = true) ∧
    formatNumber (.num 0) = "0" ∧
    rateText (some { digits := 25, exp10 := -1 }) = "2.5%" ∧
    rateText (some { negative := true, digits := 12, exp10 := -1 }) = "-1.2%" ∧
    rateText (some { digits := 1500000 }) = "1500000%" ∧
    formatNumber (.num 1500000) = "1.5M" ∧
    (rateCells (setEntry (fun _ => none) "facebook" { growth_rate := some { digits := 0 } })
      ).head? = some ("fb-growth-rate", "--%") ∧
    (rateCells (fun _ => none)).head? = some ("fb-growth-rate", "--%") := by
  refine ⟨rfl, rfl, by decide, ?_, ?_, by decide, by decide, by decide, by decide, by decide,
    by decide, rfl⟩
  · intro r
    unfold rateText
    cases h : r.isZero
    · simp [h]
    · simp [h]
  · intro negative exp10
    simp [JsonNumber.isZero, JsonNumber.magnitude, decimalValue, f64OfRat]
    split <;> simp

/-! ## Sample evaluations of the added definitions -/

/-- Sample texts of Numbers that are not integers, and of one that is: the
general `Number::toString` agrees there with the one for integers. -/
theorem numberText_examples :
    JsonNumber.text { digits := 1, exp10 := -1 } = "0.1" ∧
    JsonNumber.text { digits := 33333333333333333, exp10 := -17 } = "0.3333333333333333" ∧
    JsonNumber.text { digits := 1, exp10 := -7 } = "1e-7" ∧
    JsonNumber.text { digits := 1, exp10 := 21 } = "1e+21" ∧
    JsonNumber.text { digits := 18446744073709551616 } = numberToString 18446744073709551616 := by
  decide

/-- One render on a document that holds only the container of the fans chart:
that chart is drawn, and the two other charts of the platform are not. -/
theorem renderChartsForPlatform_example :
    renderChartsForPlatform "facebook" (.own {}) true
        (fun id => if id = "fb-fans-chart" then some none else none) "fb-fans-chart" =
      (createFacebookCharts {}).head?.map some ∧
    renderChartsForPlatform "facebook" (.own {}) true
        (fun id => if id = "fb-fans-chart" then some none else none) "fb-reach-chart" = none ∧
    renderChartsForPlatform "facebook" .undefined true
        (fun id => if id = "fb-fans-chart" then some none else none) "fb-fans-chart" =
      some none ∧
    renderChartsForPlatform "constructor" (.inherited "constructor") true
        (fun id => if id = "fb-fans-chart" then some none else none) "fb-fans-chart" =
      some none := by
  decide
end MarketingBot
